import Mathlib

set_option maxRecDepth 10000

/-!
# Verification of the Intcode virtual machine

A shallow embedding of the Intcode virtual machine from this repository:

* the reusable engine (`intcode/src/lib.rs`): offset resolution over three
  addressing modes with zero-fill memory growth, the string-based instruction
  decoder, and the fetch-decode-execute loop in `Program::run`;
* the day-07 amplifier variant (`2019-12-07/src/main.rs`): `process_opcode`
  with bounds-checked memory, `phase_settings_combinations` and
  `optimize_thrusters` with the loopback feedback topology.

Memory cells are modelled as unbounded `Int` (the Rust `i64` arithmetic never
overflows in the programs considered here), memory as `List Int`, the blocking
input channel as a list of pending values (a receive on an exhausted list is
the `RecvError` of a disconnected channel), and the output channel as an
accumulating list.  A Rust out-of-bounds slice index aborts the process; this
is modelled by the distinguished `Fail.panicked` outcome.
-/

namespace Intcode

/-- Decimal digit characters of a natural number, most significant first,
mirroring Rust's `to_string` for non-negative values.  The first argument is
recursion fuel; `natChars` instantiates it with the number itself, which is
always sufficient. -/
def natCharsAux : Nat → Nat → List Char
  | 0, n => [Nat.digitChar n]
  | f + 1, n =>
    if n < 10 then [Nat.digitChar n]
    else natCharsAux f (n / 10) ++ [Nat.digitChar (n % 10)]

/-- Decimal digit characters of a natural number, most significant first. -/
def natChars (n : Nat) : List Char := natCharsAux n n

/-- The character list of Rust's `i64::to_string`: a minus sign followed by
the decimal digits for negative values, just the digits otherwise. -/
def intChars (v : Int) : List Char :=
  if v < 0 then '-' :: natChars v.natAbs else natChars v.natAbs

/-- Numeric value of a decimal digit character, or `none` for any other
character (the failure case of Rust's `parse::<usize>` on that character). -/
def digitVal (c : Char) : Option Nat :=
  if '0' ≤ c ∧ c ≤ '9' then some (c.toNat - '0'.toNat) else none

/-- Accumulating parser for a run of decimal digit characters. -/
def parseNatAux : Nat → List Char → Option Nat
  | acc, [] => some acc
  | acc, c :: cs =>
    match digitVal c with
    | some d => parseNatAux (acc * 10 + d) cs
    | none => none

/-- Rust's `str::parse::<usize>` on the character lists produced by
`intChars`: fails on an empty string and on any non-digit character (in
particular on a leading minus sign). -/
def parseNat (cs : List Char) : Option Nat :=
  match cs with
  | [] => none
  | _ :: _ => parseNatAux 0 cs

/-- The error enumeration of `intcode::Error`.  Variants attached to foreign
error types in Rust keep only the information the engine can observe. -/
inductive Err where
  | failedUserInput
  | invalidIntOffset
  | invalidStringOffset
  | invalidMode (code : String)
  | invalidInstruction (code : String)
  | programEmpty
  | missingInput
  | missingOutput
  deriving Repr, DecidableEq

/-- A failure of the running program: either a returned `Error`, or a Rust
panic from an out-of-bounds slice index. -/
inductive Fail where
  | err (e : Err)
  | panicked
  deriving Repr, DecidableEq

/-- Computation result carrying either a value or a `Fail`. -/
abbrev Res (α : Type) := Except Fail α

/-- The three addressing modes. -/
inductive Mode where
  | immediate
  | position
  | relative
  deriving Repr, DecidableEq

/-- The instruction set of the engine. -/
inductive Instruction where
  | add (op1 op2 result : Mode)
  | multiply (op1 op2 result : Mode)
  | inp (m : Mode)
  | out (m : Mode)
  | jumpIf (condition pointer : Mode)
  | jumpIfNot (condition pointer : Mode)
  | lessThan (op1 op2 result : Mode)
  | equals (op1 op2 result : Mode)
  | modifyBase (m : Mode)
  | halt
  deriving Repr, DecidableEq

/-- `Mode::try_from` on a one-character slice of the reversed mode string
(`"0"` position, `"1"` immediate, `"2"` relative, anything else
`InvalidMode`). -/
def modeOfChar (c : Char) : Except Err Mode :=
  if c = '0' then .ok .position
  else if c = '1' then .ok .immediate
  else if c = '2' then .ok .relative
  else .error (.invalidMode (String.mk [c]))

/-- Mode of the parameter at position `k` (0-based) of the reversed mode
character list: the slice `get(k..k+1)` with `unwrap_or("0")`. -/
def modeAt (rest : List Char) (k : Nat) : Except Err Mode :=
  modeOfChar (rest.getD k '0')

/-- The `instruction_code` slice of `Instruction::try_from`: the last
`min(length, 2)` characters of the formatted cell value. -/
def icodeOf (intcode : Int) : List Char :=
  let cs := intChars intcode
  cs.drop (cs.length - min cs.length 2)

/-- The reversed remainder of the formatted cell value after truncating the
`instruction_code` characters: the per-parameter mode digit string. -/
def restOf (intcode : Int) : List Char :=
  let cs := intChars intcode
  (cs.take (cs.length - (icodeOf intcode).length)).reverse

/-- The `match instruction_code` dispatch of `Instruction::try_from`. -/
def dispatch (code : Nat) (rest : List Char) : Except Err Instruction :=
  if code = 1 then do
      pure (.add (← modeAt rest 0) (← modeAt rest 1) (← modeAt rest 2))
    else if code = 2 then do
      pure (.multiply (← modeAt rest 0) (← modeAt rest 1) (← modeAt rest 2))
    else if code = 3 then do
      pure (.inp (← modeAt rest 0))
    else if code = 4 then do
      pure (.out (← modeAt rest 0))
    else if code = 5 then do
      pure (.jumpIf (← modeAt rest 0) (← modeAt rest 1))
    else if code = 6 then do
      pure (.jumpIfNot (← modeAt rest 0) (← modeAt rest 1))
    else if code = 7 then do
      pure (.lessThan (← modeAt rest 0) (← modeAt rest 1) (← modeAt rest 2))
    else if code = 8 then do
      pure (.equals (← modeAt rest 0) (← modeAt rest 1) (← modeAt rest 2))
    else if code = 9 then do
      pure (.modifyBase (← modeAt rest 0))
    else if code = 99 then
      pure .halt
    else
      .error (.invalidInstruction (toString code))

/-- `impl TryFrom<i64> for Instruction`: format the cell value in decimal,
split off the last `min(length, 2)` characters as the opcode, reverse the
remaining characters to index per-parameter mode digits, parse the opcode as
a `usize` and dispatch. -/
def decode (intcode : Int) : Except Err Instruction :=
  match parseNat (icodeOf intcode) with
  | none => .error (.invalidInstruction (String.mk (restOf intcode)))
  | some code => dispatch code (restOf intcode)

/-- `usize::try_from(value: i64)`: fails (with the `TryFromIntError` that
`Program::run` converts into `Error::InvalidIntOffset`) exactly on negative
values. -/
def offsetOfInt (v : Int) : Except Err Nat :=
  if v < 0 then .error .invalidIntOffset else .ok v.toNat

/-- Lift a plain `Error` result into `Res`. -/
def liftE : Except Err α → Res α
  | .ok a => .ok a
  | .error e => .error (.err e)

/-- Rust slice read `self.opcodes[i]`: panics when `i` is out of bounds. -/
def readCell (mem : List Int) (i : Nat) : Res Int :=
  match mem.get? i with
  | some v => .ok v
  | none => .error .panicked

/-- Rust slice write `self.opcodes[i] = v`: panics when `i` is out of
bounds. -/
def writeCell (mem : List Int) (i : Nat) (v : Int) : Res (List Int) :=
  if i < mem.length then .ok (mem.set i v) else .error .panicked

/-- The mutable state of a `Program`: its memory, relative base (a `usize`
in the source, hence a `Nat`), the pending values of its input channel and
the values sent on its output channel so far. -/
structure St where
  opcodes : List Int
  base : Nat
  inputs : List Int
  outputs : List Int
  deriving Repr, DecidableEq

/-- The growth loop at the end of `Program::offset_from_mode`: when the
resolved offset is at or beyond the current length, push zero cells up to
and including that offset. -/
def grow (mem : List Int) (o : Nat) : List Int :=
  if mem.length ≤ o then mem ++ List.replicate (o + 1 - mem.length) 0 else mem

/-- The `match mode` expression of `Program::offset_from_mode`: the raw
offset of the parameter at slot `index`.  Position and relative modes read
the slot (an out-of-bounds slot panics, as the Rust indexing does). -/
def resolveOffset (s : St) (index : Nat) (mode : Mode) : Res Nat :=
  match mode with
  | .position => do liftE (offsetOfInt (← readCell s.opcodes index))
  | .immediate => .ok index
  | .relative => do liftE (offsetOfInt ((← readCell s.opcodes index) + (s.base : Int)))

/-- `Program::offset_from_mode`: resolve the parameter at slot `index` under
`mode`; on a successfully resolved offset the memory is grown to cover it. -/
def offset_from_mode (s : St) (index : Nat) (mode : Mode) : Res (Nat × St) := do
  let o ← resolveOffset s index mode
  .ok (o, { s with opcodes := grow s.opcodes o })

/-- One iteration of the `Program::run` loop body, starting with the opcode
cell at `i`.  Returns the new state, the new program counter, and whether the
iteration executed `Halt` (broke out of the loop). -/
def step (s : St) (i : Nat) : Res (St × Nat × Bool) := do
  let cell ← readCell s.opcodes i
  let instr ← liftE (decode cell)
  let i := i + 1
  match instr with
  | .add m1 m2 m3 => do
    let (o1, s) ← offset_from_mode s i m1
    let (o2, s) ← offset_from_mode s (i + 1) m2
    let (o3, s) ← offset_from_mode s (i + 2) m3
    let v1 ← readCell s.opcodes o1
    let v2 ← readCell s.opcodes o2
    let mem ← writeCell s.opcodes o3 (v1 + v2)
    pure ({ s with opcodes := mem }, i + 3, false)
  | .multiply m1 m2 m3 => do
    let (o1, s) ← offset_from_mode s i m1
    let (o2, s) ← offset_from_mode s (i + 1) m2
    let (o3, s) ← offset_from_mode s (i + 2) m3
    let v1 ← readCell s.opcodes o1
    let v2 ← readCell s.opcodes o2
    let mem ← writeCell s.opcodes o3 (v1 * v2)
    pure ({ s with opcodes := mem }, i + 3, false)
  | .inp m => do
    let (o, s) ← offset_from_mode s i m
    match s.inputs with
    | [] => throw (.err .missingInput)
    | v :: rest => do
      let mem ← writeCell s.opcodes o v
      pure ({ s with opcodes := mem, inputs := rest }, i + 1, false)
  | .out m => do
    let (o, s) ← offset_from_mode s i m
    let v ← readCell s.opcodes o
    pure ({ s with outputs := s.outputs ++ [v] }, i + 1, false)
  | .jumpIf m1 m2 => do
    let (o1, s) ← offset_from_mode s i m1
    let c ← readCell s.opcodes o1
    if c ≠ 0 then do
      let (o2, s) ← offset_from_mode s (i + 1) m2
      let t ← readCell s.opcodes o2
      let j ← liftE (offsetOfInt t)
      pure (s, j, false)
    else
      pure (s, i + 2, false)
  | .jumpIfNot m1 m2 => do
    let (o1, s) ← offset_from_mode s i m1
    let c ← readCell s.opcodes o1
    if c = 0 then do
      let (o2, s) ← offset_from_mode s (i + 1) m2
      let t ← readCell s.opcodes o2
      let j ← liftE (offsetOfInt t)
      pure (s, j, false)
    else
      pure (s, i + 2, false)
  | .lessThan m1 m2 m3 => do
    let (o1, s) ← offset_from_mode s i m1
    let (o2, s) ← offset_from_mode s (i + 1) m2
    let (o3, s) ← offset_from_mode s (i + 2) m3
    let v1 ← readCell s.opcodes o1
    let v2 ← readCell s.opcodes o2
    let mem ← writeCell s.opcodes o3 (if v1 < v2 then 1 else 0)
    pure ({ s with opcodes := mem }, i + 3, false)
  | .equals m1 m2 m3 => do
    let (o1, s) ← offset_from_mode s i m1
    let (o2, s) ← offset_from_mode s (i + 1) m2
    let (o3, s) ← offset_from_mode s (i + 2) m3
    let v1 ← readCell s.opcodes o1
    let v2 ← readCell s.opcodes o2
    let mem ← writeCell s.opcodes o3 (if v1 = v2 then 1 else 0)
    pure ({ s with opcodes := mem }, i + 3, false)
  | .modifyBase m => do
    let (o, s) ← offset_from_mode s i m
    let v ← readCell s.opcodes o
    -- `self.opcodes[base_offset.0] + self.base as i64` is an `i64` addition:
    -- outside [-2^63, 2^63) it overflows (a debug build panics there; a
    -- release build wraps to a negative value, which then fails the `usize`
    -- conversion).  The model adopts the default (debug) panic.
    if v + (s.base : Int) < -9223372036854775808 ∨
        9223372036854775808 ≤ v + (s.base : Int) then
      .error .panicked
    else do
      let b ← liftE (offsetOfInt (v + (s.base : Int)))
      pure ({ s with base := b }, i + 1, false)
  | .halt =>
    pure (s, i, true)

/-- Outcome of `Program::run`: success (with the final state, final program
counter and whether a `Halt` instruction was executed), a returned error, a
panic, or exhaustion of the step fuel of the embedding. -/
inductive RunOut where
  | ok (s : St) (i : Nat) (halted : Bool)
  | error (e : Err)
  | panicked
  | timeout (s : St) (i : Nat)
  deriving Repr, DecidableEq

/-- The `while index < self.opcodes.len()` loop of `Program::run`, with
explicit fuel. -/
def runLoop : Nat → St → Nat → RunOut
  | 0, s, i => .timeout s i
  | fuel + 1, s, i =>
    if i < s.opcodes.length then
      match step s i with
      | .error (.err e) => .error e
      | .error .panicked => .panicked
      | .ok (s', i', true) => .ok s' i' true
      | .ok (s', i', false) => runLoop fuel s' i'
    else
      .ok s i false

/-- `Program::run` on a freshly constructed `Program` (relative base zero),
with the given pending inputs and the given fuel. -/
def runProgram (opcodes : List Int) (inputs : List Int) (fuel : Nat) : RunOut :=
  if opcodes.isEmpty then .error .programEmpty
  else runLoop fuel { opcodes := opcodes, base := 0, inputs := inputs, outputs := [] } 0

/-- Whether a run outcome is the `Ok(())` return of `Program::run`. -/
def RunOut.isOk : RunOut → Bool
  | .ok _ _ _ => true
  | _ => false

/-- The final memory of a successful run. -/
def RunOut.mem? : RunOut → Option (List Int)
  | .ok s _ _ => some s.opcodes
  | _ => none

/-- The collected outputs of a successful run. -/
def RunOut.outputs? : RunOut → Option (List Int)
  | .ok s _ _ => some s.outputs
  | _ => none

/-- Whether a successful run terminated by executing `Halt` (rather than by
the program counter leaving the memory range). -/
def RunOut.haltFlag? : RunOut → Option Bool
  | .ok _ _ b => some b
  | _ => none

@[simp]
theorem res_ok_bind {α β : Type} (a : α) (f : α → Res β) :
    (Except.ok a : Res α) >>= f = f a := rfl

@[simp]
theorem res_error_bind {α β : Type} (e : Fail) (f : α → Res β) :
    (Except.error e : Res α) >>= f = Except.error e := rfl

theorem runLoop_succ (fuel : Nat) (s : St) (i : Nat) (h : i < s.opcodes.length) :
    runLoop (fuel + 1) s i =
      match step s i with
      | .error (.err e) => .error e
      | .error .panicked => .panicked
      | .ok (s', i', true) => .ok s' i' true
      | .ok (s', i', false) => runLoop fuel s' i' := by
  rw [runLoop, if_pos h]

theorem runLoop_step_next (fuel : Nat) (s : St) (i : Nat) (s' : St) (i' : Nat)
    (h : i < s.opcodes.length) (hs : step s i = .ok (s', i', false)) :
    runLoop (fuel + 1) s i = runLoop fuel s' i' := by
  rw [runLoop_succ fuel s i h, hs]

theorem runLoop_step_halt (fuel : Nat) (s : St) (i : Nat) (s' : St) (i' : Nat)
    (h : i < s.opcodes.length) (hs : step s i = .ok (s', i', true)) :
    runLoop (fuel + 1) s i = .ok s' i' true := by
  rw [runLoop_succ fuel s i h, hs]

theorem runLoop_step_err (fuel : Nat) (s : St) (i : Nat) (e : Err)
    (h : i < s.opcodes.length) (hs : step s i = .error (.err e)) :
    runLoop (fuel + 1) s i = .error e := by
  rw [runLoop_succ fuel s i h, hs]

/-- The large-memory test program of the spec. -/
def quineProg : List Int := [109, 2000, 109, 19, 204, -34, 99]

/-- The memory of `quineProg` after the out-of-range relative output grew it
to cover offset 1985. -/
def quineBig : List Int := quineProg ++ List.replicate 1979 0

theorem quineBig_length : quineBig.length = 1986 := by
  simp [quineBig, quineProg]

theorem readCell_quineBig_1985 : readCell quineBig 1985 = .ok 0 := by
  unfold readCell quineBig
  rw [List.get?_eq_getElem?, List.getElem?_append_right (by norm_num [quineProg])]
  norm_num [List.getElem?_replicate, quineProg]

theorem step_quine_0 (ins : List Int) :
    step ⟨quineProg, 0, ins, []⟩ 0 = .ok (⟨quineProg, 2000, ins, []⟩, 2, false) := rfl

theorem step_quine_2 (ins : List Int) :
    step ⟨quineProg, 2000, ins, []⟩ 2 = .ok (⟨quineProg, 2019, ins, []⟩, 4, false) := rfl

theorem ofm_quine_5 (ins : List Int) :
    offset_from_mode ⟨quineProg, 2019, ins, []⟩ 5 .relative =
      .ok (1985, ⟨quineBig, 2019, ins, []⟩) := rfl

theorem step_quine_4 (ins : List Int) :
    step ⟨quineProg, 2019, ins, []⟩ 4 = .ok (⟨quineBig, 2019, ins, [0]⟩, 6, false) := by
  simp only [step, show readCell quineProg 4 = Except.ok 204 from rfl,
    show liftE (decode 204) = Except.ok (Instruction.out .relative) from rfl,
    res_ok_bind, ofm_quine_5, readCell_quineBig_1985]
  rfl

theorem step_quine_6 (ins : List Int) :
    step ⟨quineBig, 2019, ins, [0]⟩ 6 = .ok (⟨quineBig, 2019, ins, [0]⟩, 7, true) := rfl

theorem runProgram_eq (opcodes inputs : List Int) (fuel : Nat)
    (h : opcodes.isEmpty = false) :
    runProgram opcodes inputs fuel = runLoop fuel ⟨opcodes, 0, inputs, []⟩ 0 := by
  unfold runProgram
  rw [h]
  simp

theorem runProgram_quine (ins : List Int) :
    runProgram quineProg ins 9 = .ok ⟨quineBig, 2019, ins, [0]⟩ 7 true := by
  rw [runProgram_eq quineProg ins 9 rfl,
    runLoop_step_next 8 ⟨quineProg, 0, ins, []⟩ 0 ⟨quineProg, 2000, ins, []⟩ 2
      (by show (0 : Nat) < 7; decide) (step_quine_0 ins),
    runLoop_step_next 7 ⟨quineProg, 2000, ins, []⟩ 2 ⟨quineProg, 2019, ins, []⟩ 4
      (by show (2 : Nat) < 7; decide) (step_quine_2 ins),
    runLoop_step_next 6 ⟨quineProg, 2019, ins, []⟩ 4 ⟨quineBig, 2019, ins, [0]⟩ 6
      (by show (4 : Nat) < 7; decide) (step_quine_4 ins),
    runLoop_step_halt 5 ⟨quineBig, 2019, ins, [0]⟩ 6 ⟨quineBig, 2019, ins, [0]⟩ 7
      (by rw [show St.opcodes ⟨quineBig, 2019, ins, [0]⟩ = quineBig from rfl, quineBig_length]
          omega)
      (step_quine_6 ins)]

theorem grow_length (mem : List Int) (o : Nat) :
    o < (grow mem o).length ∧ mem.length ≤ (grow mem o).length := by
  unfold grow
  split
  · simp only [List.length_append, List.length_replicate]
    omega
  · omega

theorem grow_append (mem : List Int) (o : Nat) :
    ∃ k, grow mem o = mem ++ List.replicate k 0 := by
  unfold grow
  split
  · exact ⟨o + 1 - mem.length, rfl⟩
  · exact ⟨0, by simp⟩

theorem grow_of_le (mem : List Int) (o : Nat) (h : mem.length ≤ o) :
    grow mem o = mem ++ List.replicate (o + 1 - mem.length) 0 := by
  unfold grow
  rw [if_pos h]

theorem grow_get?_lt (mem : List Int) (o j : Nat) (hj : j < mem.length) :
    (grow mem o).get? j = mem.get? j := by
  unfold grow
  split
  · rw [List.get?_eq_getElem?, List.get?_eq_getElem?, List.getElem?_append, if_pos hj]
  · rfl

theorem offset_from_mode_cases (s : St) (i : Nat) (m : Mode) (o : Nat) (s' : St)
    (h : offset_from_mode s i m = .ok (o, s')) :
    resolveOffset s i m = .ok o ∧ s' = { s with opcodes := grow s.opcodes o } := by
  unfold offset_from_mode at h
  cases hx : resolveOffset s i m with
  | error f =>
    rw [hx] at h
    simp at h
  | ok o2 =>
    rw [hx] at h
    simp only [res_ok_bind, Except.ok.injEq, Prod.mk.injEq] at h
    obtain ⟨rfl, rfl⟩ := h
    exact ⟨rfl, rfl⟩

theorem offset_from_mode_error_of_resolve (s : St) (i : Nat) (m : Mode) (f : Fail)
    (h : resolveOffset s i m = .error f) :
    offset_from_mode s i m = .error f := by
  unfold offset_from_mode
  rw [h]
  simp

theorem runLoop_ok_inv (fuel : Nat) :
    ∀ (s : St) (i : Nat) (s' : St) (i' : Nat) (b : Bool),
      runLoop fuel s i = .ok s' i' b → b = true ∨ s'.opcodes.length ≤ i' := by
  induction fuel with
  | zero =>
    intro s i s' i' b h
    simp [runLoop] at h
  | succ f ih =>
    intro s i s' i' b h
    by_cases hc : i < s.opcodes.length
    · rw [runLoop_succ f s i hc] at h
      cases hs : step s i with
      | error fl =>
        rw [hs] at h
        cases fl with
        | err e => simp at h
        | panicked => simp at h
      | ok t =>
        obtain ⟨s2, i2, b2⟩ := t
        rw [hs] at h
        cases b2 with
        | true =>
          simp only [RunOut.ok.injEq] at h
          obtain ⟨rfl, rfl, rfl⟩ := h
          exact Or.inl rfl
        | false =>
          exact ih s2 i2 s' i' b h
    · rw [runLoop] at h
      rw [if_neg hc] at h
      simp only [RunOut.ok.injEq] at h
      obtain ⟨rfl, rfl, rfl⟩ := h
      exact Or.inr (Nat.le_of_not_lt hc)

end Intcode

namespace Intcode

/-- C1, counterexample: the claim asserts `Program::run` never panics on an
out-of-bounds index, in particular on program `[1]`; but running `[1]` reads
the first parameter slot (index 1) of `Add` before any growth, which is out
of bounds in a one-cell memory, so the run panics. -/
theorem c1_counterexample : runProgram [1] [] 9 = .panicked := rfl

/-- C1 (amended): every memory access performed at an offset returned by
`Program::offset_from_mode` is in bounds, so the out-of-bounds branches of
the reads and writes that follow a successful resolution are unreachable;
but the read of the parameter slot itself inside `offset_from_mode`
(position and relative modes) happens before any extension, so `run` can
still panic when the program counter's parameter slot lies past the end of
memory, as on program `[1]`. -/
theorem c1_resolved_offsets_in_bounds :
    (∀ (s : St) (i : Nat) (m : Mode) (o : Nat) (s' : St),
        offset_from_mode s i m = .ok (o, s') → o < s'.opcodes.length) ∧
      runProgram [1] [] 9 = .panicked := by
  constructor
  · intro s i m o s' h
    obtain ⟨-, rfl⟩ := offset_from_mode_cases s i m o s' h
    exact (grow_length s.opcodes o).1
  · rfl

/-- C1, witness: instantiating the in-bounds part at a concrete resolution
that grows memory by one cell. -/
theorem c1_witness : (1 : Nat) < (St.mk [99, 0] 0 [] []).opcodes.length :=
  c1_resolved_offsets_in_bounds.1 ⟨[99], 0, [], []⟩ 1 .immediate 1 ⟨[99, 0], 0, [], []⟩ rfl

/-- C2, counterexample: the claim asserts `run` returns `Ok(())` only after
executing a `Halt`; but on `[1105,1,10,99]` the taken immediate jump sets the
program counter to 10, past the end of memory, the `while` guard fails and
`run` returns success without ever executing a `Halt`. -/
theorem c2_counterexample :
    (runProgram [1105, 1, 10, 99] [] 9).isOk = true ∧
      (runProgram [1105, 1, 10, 99] [] 9).haltFlag? = some false := ⟨rfl, rfl⟩

/-- C2 (amended): `Program::run` returns `Ok(())` only if either a `Halt`
instruction was executed, or the program counter moved to a position at or
beyond the current memory length (fell off the end, e.g. via a taken jump),
in which case success is returned without a `Halt`. -/
theorem c2_run_ok_characterisation :
    ∀ (prog ins : List Int) (fuel : Nat) (s' : St) (i' : Nat) (b : Bool),
      runProgram prog ins fuel = .ok s' i' b → b = true ∨ s'.opcodes.length ≤ i' := by
  intro prog ins fuel s' i' b h
  unfold runProgram at h
  split at h
  · simp at h
  · exact runLoop_ok_inv fuel _ 0 s' i' b h

/-- C2, witness: the characterisation applied to the halting program
`[99]`. -/
theorem c2_witness :
    true = true ∨ (St.mk [99] 0 [] []).opcodes.length ≤ 1 :=
  c2_run_ok_characterisation [99] [] 2 ⟨[99], 0, [], []⟩ 1 true rfl

/-- C3: a successful operand resolution whose resolved address is at or
beyond the current length extends memory with zero cells up to and including
that address, so the subsequent read of a previously-unwritten cell yields
`0`; and the large-memory program `[109,2000,109,19,204,-34,99]` runs to a
successful halt (outputting the zero it read at offset 1985) for every input
sequence. -/
theorem c3_memory_autogrowth :
    (∀ (s : St) (i : Nat) (m : Mode) (o : Nat) (s' : St),
        offset_from_mode s i m = .ok (o, s') → s.opcodes.length ≤ o →
          s'.opcodes = s.opcodes ++ List.replicate (o + 1 - s.opcodes.length) 0 ∧
            s'.opcodes.get? o = some 0) ∧
      ∀ ins : List Int, (runProgram quineProg ins 9).isOk = true ∧
        (runProgram quineProg ins 9).outputs? = some [0] ∧
        (runProgram quineProg ins 9).haltFlag? = some true := by
  constructor
  · intro s i m o s' h hlen
    obtain ⟨-, rfl⟩ := offset_from_mode_cases s i m o s' h
    constructor
    · exact grow_of_le s.opcodes o hlen
    · show (grow s.opcodes o).get? o = some 0
      rw [grow_of_le s.opcodes o hlen, List.get?_eq_getElem?, List.getElem?_append,
        if_neg (by omega), List.getElem?_replicate, if_pos (by omega)]
  · intro ins
    rw [runProgram_quine ins]
    exact ⟨rfl, rfl, rfl⟩

/-- C3, witness: the growth part applied to an immediate resolution past the
end of a one-cell memory, and the large-memory program run on the empty
input sequence. -/
theorem c3_witness :
    ((St.mk [99, 0, 0, 0] 0 [] []).opcodes = [99] ++ List.replicate 3 0 ∧
        (St.mk [99, 0, 0, 0] 0 [] []).opcodes.get? 3 = some 0) ∧
      (runProgram quineProg [] 9).isOk = true ∧
        (runProgram quineProg [] 9).outputs? = some [0] ∧
        (runProgram quineProg [] 9).haltFlag? = some true :=
  ⟨c3_memory_autogrowth.1 ⟨[99], 0, [], []⟩ 3 .immediate 3 ⟨[99, 0, 0, 0], 0, [], []⟩ rfl
      (by decide),
    c3_memory_autogrowth.2 []⟩

/-- C9: whenever `Program::offset_from_mode` returns `Ok(offset)`, the
returned offset is strictly below the memory length at the moment of return,
and the call changed the state only by appending zero-valued cells to memory
(base, pending inputs and sent outputs are untouched, and every previously
existing cell keeps its value because growth is a pure append). -/
theorem c9_resolver_postcondition :
    ∀ (s : St) (i : Nat) (m : Mode) (o : Nat) (s' : St),
      offset_from_mode s i m = .ok (o, s') →
        o < s'.opcodes.length ∧
          (∃ k, s'.opcodes = s.opcodes ++ List.replicate k 0) ∧
          s'.base = s.base ∧ s'.inputs = s.inputs ∧ s'.outputs = s.outputs := by
  intro s i m o s' h
  obtain ⟨-, rfl⟩ := offset_from_mode_cases s i m o s' h
  exact ⟨(grow_length s.opcodes o).1, grow_append s.opcodes o, rfl, rfl, rfl⟩

/-- C9, witness: the postcondition at an immediate-mode resolution whose
parameter slot index equals the current memory length. -/
theorem c9_witness :
    (1 : Nat) < (St.mk [99, 0] 7 [3] [4]).opcodes.length ∧
      (∃ k, (St.mk [99, 0] 7 [3] [4]).opcodes = [99] ++ List.replicate k 0) ∧
      (St.mk [99, 0] 7 [3] [4]).base = 7 ∧
      (St.mk [99, 0] 7 [3] [4]).inputs = [3] ∧
      (St.mk [99, 0] 7 [3] [4]).outputs = [4] :=
  c9_resolver_postcondition ⟨[99], 7, [3], [4]⟩ 1 .immediate 1 ⟨[99, 0], 7, [3], [4]⟩ rfl

/-- C6: running `[1,9,10,3,2,3,11,0,99,30,40,50]` with no inputs succeeds
(by executing `Halt`) and leaves final memory whose first four cells are
`[3500,9,10,70]`. -/
theorem c6_add_multiply_halt :
    runProgram [1, 9, 10, 3, 2, 3, 11, 0, 99, 30, 40, 50] [] 9 =
        .ok ⟨[3500, 9, 10, 70, 2, 3, 11, 0, 99, 30, 40, 50], 0, [], []⟩ 9 true ∧
      ((runProgram [1, 9, 10, 3, 2, 3, 11, 0, 99, 30, 40, 50] [] 9).mem?.map
          (List.take 4)) = some [3500, 9, 10, 70] := ⟨rfl, rfl⟩

/-- C7: a position-mode or relative-mode resolution whose computed address
is negative fails with the `InvalidIntOffset` error (the spec's
`InvalidOffset`); a failing step aborts the run loop immediately with that
error and it is returned to the caller, as on program `[4,-1,99]`. -/
theorem c7_negative_address_errors :
    (∀ (s : St) (i : Nat) (v : Int), s.opcodes.get? i = some v → v < 0 →
        offset_from_mode s i .position = .error (.err .invalidIntOffset)) ∧
      (∀ (s : St) (i : Nat) (v : Int), s.opcodes.get? i = some v →
          v + (s.base : Int) < 0 →
          offset_from_mode s i .relative = .error (.err .invalidIntOffset)) ∧
      (∀ (fuel : Nat) (s : St) (i : Nat) (e : Err), i < s.opcodes.length →
          step s i = .error (.err e) → runLoop (fuel + 1) s i = .error e) ∧
      runProgram [4, -1, 99] [] 9 = .error .invalidIntOffset := by
  refine ⟨?_, ?_, ?_, rfl⟩
  · intro s i v h hv
    apply offset_from_mode_error_of_resolve
    simp only [resolveOffset, readCell, h, res_ok_bind, offsetOfInt, if_pos hv, liftE]
  · intro s i v h hv
    apply offset_from_mode_error_of_resolve
    simp only [resolveOffset, readCell, h, res_ok_bind, offsetOfInt, if_pos hv, liftE]
  · intro fuel s i e hlt hs
    rw [runLoop_succ fuel s i hlt, hs]

/-- C7, witness: the three parts at concrete inputs: a negative
position-mode address, a negative relative-mode address, and the one-step
abort of the run loop on program `[4,-1,99]`. -/
theorem c7_witness :
    offset_from_mode ⟨[4, -1, 99], 0, [], []⟩ 1 .position =
        .error (.err .invalidIntOffset) ∧
      offset_from_mode ⟨[204, -7, 99], 5, [], []⟩ 1 .relative =
        .error (.err .invalidIntOffset) ∧
      runLoop 1 ⟨[4, -1, 99], 0, [], []⟩ 0 = .error .invalidIntOffset :=
  ⟨c7_negative_address_errors.1 ⟨[4, -1, 99], 0, [], []⟩ 1 (-1) rfl (by decide),
    c7_negative_address_errors.2.1 ⟨[204, -7, 99], 5, [], []⟩ 1 (-7) rfl (by decide),
    c7_negative_address_errors.2.2.1 0 ⟨[4, -1, 99], 0, [], []⟩ 0 .invalidIntOffset
      (by decide) rfl⟩

/-- C4, counterexample: the claim asserts `AdjustRelativeBase` always
succeeds for every operand value, including ones making the new base
negative; but the relative base is stored as a `usize` and the conversion of
a negative new base fails, so `[109,-1,99]` returns the `InvalidIntOffset`
error instead of succeeding. -/
theorem c4_counterexample : runProgram [109, -1, 99] [] 9 = .error .invalidIntOffset := rfl

/-- C4 (amended): `AdjustRelativeBase` computes the new base as the `i64`
sum of the resolved operand value `v` and the current base.  When that sum
stays in the `i64` range, the instruction succeeds iff the sum is
non-negative, in which case the base becomes `relative_base + v`, and fails
with the `InvalidIntOffset` error when the sum is negative (the base is
stored as a non-negative machine integer); when the sum overflows `i64` the
addition itself fails before any conversion (a debug build panics; a release
build wraps to a negative value that then fails the `usize` conversion), so
the instruction does not succeed there either, and the overflowing program
`[109,1,109,9223372036854775807,99]` makes the run panic instead of
completing. -/
theorem c4_adjust_relative_base :
    (∀ (s : St) (i : Nat) (m : Mode) (c : Int) (o : Nat) (s₁ : St) (v : Int),
        s.opcodes.get? i = some c →
        decode c = .ok (.modifyBase m) →
        offset_from_mode s (i + 1) m = .ok (o, s₁) →
        s₁.opcodes.get? o = some v →
        (0 ≤ v + (s.base : Int) → v + (s.base : Int) < 9223372036854775808 →
            step s i = .ok ({ s₁ with base := (v + (s.base : Int)).toNat }, i + 2, false)) ∧
          (-9223372036854775808 ≤ v + (s.base : Int) → v + (s.base : Int) < 0 →
              step s i = .error (.err .invalidIntOffset)) ∧
          (v + (s.base : Int) < -9223372036854775808 ∨
              9223372036854775808 ≤ v + (s.base : Int) →
            step s i = .error .panicked)) ∧
      runProgram [109, 1, 109, 9223372036854775807, 99] [] 9 = .panicked := by
  constructor
  · intro s i m c o s₁ v hc hdec hofm hv
    have hbase : s₁.base = s.base := by
      obtain ⟨-, rfl⟩ := offset_from_mode_cases s (i + 1) m o s₁ hofm
      rfl
    refine ⟨?_, ?_, ?_⟩
    · intro hge hlt
      simp only [step, readCell, hc, res_ok_bind, hdec, liftE, hofm, hv, hbase,
        if_neg (show ¬(v + (s.base : Int) < -9223372036854775808 ∨
          9223372036854775808 ≤ v + (s.base : Int)) by omega),
        offsetOfInt, if_neg (not_lt.mpr hge)]
      rfl
    · intro hge hlt
      simp only [step, readCell, hc, res_ok_bind, hdec, liftE, hofm, hv, hbase,
        if_neg (show ¬(v + (s.base : Int) < -9223372036854775808 ∨
          9223372036854775808 ≤ v + (s.base : Int)) by omega),
        offsetOfInt, if_pos hlt]
      rfl
    · intro hor
      simp only [step, readCell, hc, res_ok_bind, hdec, liftE, hofm, hv, hbase, if_pos hor]
  · rfl

/-- C4, witness: the amended statement at a successful adjustment
(`base 7 + 5 = 12` on `[109,5,99]`), at a failing one
(`base 2 + (-9) < 0` on `[109,-9,99]`), and at an `i64` overflow
(`9223372036854775807 + base 1` at the second instruction of
`[109,1,109,9223372036854775807,99]`). -/
theorem c4_witness :
    step ⟨[109, 5, 99], 7, [], []⟩ 0 = .ok (⟨[109, 5, 99], 12, [], []⟩, 2, false) ∧
      step ⟨[109, -9, 99], 2, [], []⟩ 0 = .error (.err .invalidIntOffset) ∧
      step ⟨[109, 1, 109, 9223372036854775807, 99], 1, [], []⟩ 2 = .error .panicked :=
  ⟨(c4_adjust_relative_base.1 ⟨[109, 5, 99], 7, [], []⟩ 0 .immediate 109 1
        ⟨[109, 5, 99], 7, [], []⟩ 5 rfl rfl rfl rfl).1 (by decide) (by decide),
    (c4_adjust_relative_base.1 ⟨[109, -9, 99], 2, [], []⟩ 0 .immediate 109 1
        ⟨[109, -9, 99], 2, [], []⟩ (-9) rfl rfl rfl rfl).2.1 (by decide) (by decide),
    (c4_adjust_relative_base.1 ⟨[109, 1, 109, 9223372036854775807, 99], 1, [], []⟩ 2
        .immediate 109 3 ⟨[109, 1, 109, 9223372036854775807, 99], 1, [], []⟩
        9223372036854775807 rfl rfl rfl rfl).2.2 (Or.inr (by decide))⟩

/-- Whether a mode is `Immediate`. -/
def isImm : Mode → Bool
  | .immediate => true
  | _ => false

/-- Whether every parameter of an instruction decodes to `Immediate` mode. -/
def allImmediate : Instruction → Bool
  | .add m1 m2 m3 => isImm m1 && isImm m2 && isImm m3
  | .multiply m1 m2 m3 => isImm m1 && isImm m2 && isImm m3
  | .inp m => isImm m
  | .out m => isImm m
  | .jumpIf m1 m2 => isImm m1 && isImm m2
  | .jumpIfNot m1 m2 => isImm m1 && isImm m2
  | .lessThan m1 m2 m3 => isImm m1 && isImm m2 && isImm m3
  | .equals m1 m2 m3 => isImm m1 && isImm m2 && isImm m3
  | .modifyBase m => isImm m
  | .halt => true

/-- The declared destination slot of an instruction whose opcode cell sits
at index `i`: the third parameter slot for the three-parameter instructions,
the single parameter slot for `Input`, and none for the rest. -/
def destSlot : Instruction → Nat → Option Nat
  | .add _ _ _, i => some (i + 3)
  | .multiply _ _ _, i => some (i + 3)
  | .lessThan _ _ _, i => some (i + 3)
  | .equals _ _ _, i => some (i + 3)
  | .inp _, i => some (i + 1)
  | _, _ => none

theorem isImm_true {m : Mode} (h : isImm m = true) : m = .immediate := by
  cases m
  · rfl
  · simp [isImm] at h
  · simp [isImm] at h

theorem res_bind_eq_ok {α β : Type} {x : Res α} {f : α → Res β} {y : β}
    (h : x >>= f = .ok y) : ∃ a, x = .ok a ∧ f a = .ok y := by
  cases x with
  | ok a => exact ⟨a, rfl, by simpa using h⟩
  | error e => simp [res_error_bind] at h

theorem writeCell_ok {mem : List Int} {k : Nat} {v : Int} {mem' : List Int}
    (h : writeCell mem k v = .ok mem') : mem' = mem.set k v := by
  unfold writeCell at h
  split at h
  · injection h with h2
    exact h2.symm
  · simp at h

theorem offset_from_mode_immediate (s : St) (idx : Nat) :
    offset_from_mode s idx .immediate = .ok (idx, { s with opcodes := grow s.opcodes idx }) := rfl

theorem grow_pres (mem : List Int) (o j : Nat) (hj : j < mem.length) :
    (grow mem o).get? j = mem.get? j ∧ j < (grow mem o).length :=
  ⟨grow_get?_lt mem o j hj, lt_of_lt_of_le hj (grow_length mem o).2⟩

theorem set_grow3_get? (mem : List Int) (a b c j : Nat) (v : Int)
    (hj : j < mem.length) (hne : c ≠ j) :
    ((grow (grow (grow mem a) b) c).set c v).get? j = mem.get? j := by
  obtain ⟨e1, l1⟩ := grow_pres mem a j hj
  obtain ⟨e2, l2⟩ := grow_pres (grow mem a) b j l1
  obtain ⟨e3, l3⟩ := grow_pres (grow (grow mem a) b) c j l2
  rw [List.get?_eq_getElem?, List.getElem?_set_ne hne, ← List.get?_eq_getElem?, e3, e2, e1]

theorem set_grow1_get? (mem : List Int) (a j : Nat) (v : Int)
    (hj : j < mem.length) (hne : a ≠ j) :
    ((grow mem a).set a v).get? j = mem.get? j := by
  obtain ⟨e1, l1⟩ := grow_pres mem a j hj
  rw [List.get?_eq_getElem?, List.getElem?_set_ne hne, ← List.get?_eq_getElem?, e1]

theorem grow2_get? (mem : List Int) (a b j : Nat) (hj : j < mem.length) :
    (grow (grow mem a) b).get? j = mem.get? j := by
  obtain ⟨e1, l1⟩ := grow_pres mem a j hj
  rw [(grow_pres (grow mem a) b j l1).1, e1]

theorem res_pure_eq {α : Type} {a y : α} (h : (pure a : Res α) = .ok y) : a = y := by
  have h2 : (Except.ok a : Res α) = .ok y := h
  injection h2

/-- C8: executing an instruction all of whose parameters decode to
`Immediate` mode mutates no memory cell other than its declared destination
slot: every cell that existed before the instruction, except the
destination, holds the same value afterwards. -/
theorem c8_immediate_frame :
    ∀ (s : St) (i : Nat) (c : Int) (instr : Instruction) (s' : St) (i' : Nat) (b : Bool),
      s.opcodes.get? i = some c →
      decode c = .ok instr →
      allImmediate instr = true →
      step s i = .ok (s', i', b) →
      ∀ j : Nat, j < s.opcodes.length → destSlot instr i ≠ some j →
        s'.opcodes.get? j = s.opcodes.get? j := by
  intro s i c instr s' i' b hc hdec hall h j hj hdst
  have hrc : readCell s.opcodes i = Except.ok c := by
    unfold readCell
    rw [hc]
  cases instr with
  | add m1 m2 m3 =>
    simp only [allImmediate, Bool.and_eq_true] at hall
    obtain ⟨⟨h1, h2⟩, h3⟩ := hall
    obtain rfl := isImm_true h1
    obtain rfl := isImm_true h2
    obtain rfl := isImm_true h3
    have hne : i + 3 ≠ j := by simpa [destSlot] using hdst
    simp only [step, hrc, res_ok_bind, hdec, liftE, offset_from_mode_immediate] at h
    obtain ⟨v1, hv1, h⟩ := res_bind_eq_ok h
    obtain ⟨v2, hv2, h⟩ := res_bind_eq_ok h
    obtain ⟨mem2, hw, h⟩ := res_bind_eq_ok h
    have htup := res_pure_eq h
    simp only [Prod.mk.injEq] at htup
    obtain ⟨hst, -, -⟩ := htup
    subst hst
    show mem2.get? j = s.opcodes.get? j
    rw [writeCell_ok hw]
    exact set_grow3_get? _ _ _ _ _ _ hj hne
  | multiply m1 m2 m3 =>
    simp only [allImmediate, Bool.and_eq_true] at hall
    obtain ⟨⟨h1, h2⟩, h3⟩ := hall
    obtain rfl := isImm_true h1
    obtain rfl := isImm_true h2
    obtain rfl := isImm_true h3
    have hne : i + 3 ≠ j := by simpa [destSlot] using hdst
    simp only [step, hrc, res_ok_bind, hdec, liftE, offset_from_mode_immediate] at h
    obtain ⟨v1, hv1, h⟩ := res_bind_eq_ok h
    obtain ⟨v2, hv2, h⟩ := res_bind_eq_ok h
    obtain ⟨mem2, hw, h⟩ := res_bind_eq_ok h
    have htup := res_pure_eq h
    simp only [Prod.mk.injEq] at htup
    obtain ⟨hst, -, -⟩ := htup
    subst hst
    show mem2.get? j = s.opcodes.get? j
    rw [writeCell_ok hw]
    exact set_grow3_get? _ _ _ _ _ _ hj hne
  | lessThan m1 m2 m3 =>
    simp only [allImmediate, Bool.and_eq_true] at hall
    obtain ⟨⟨h1, h2⟩, h3⟩ := hall
    obtain rfl := isImm_true h1
    obtain rfl := isImm_true h2
    obtain rfl := isImm_true h3
    have hne : i + 3 ≠ j := by simpa [destSlot] using hdst
    simp only [step, hrc, res_ok_bind, hdec, liftE, offset_from_mode_immediate] at h
    obtain ⟨v1, hv1, h⟩ := res_bind_eq_ok h
    obtain ⟨v2, hv2, h⟩ := res_bind_eq_ok h
    obtain ⟨mem2, hw, h⟩ := res_bind_eq_ok h
    have htup := res_pure_eq h
    simp only [Prod.mk.injEq] at htup
    obtain ⟨hst, -, -⟩ := htup
    subst hst
    show mem2.get? j = s.opcodes.get? j
    rw [writeCell_ok hw]
    exact set_grow3_get? _ _ _ _ _ _ hj hne
  | equals m1 m2 m3 =>
    simp only [allImmediate, Bool.and_eq_true] at hall
    obtain ⟨⟨h1, h2⟩, h3⟩ := hall
    obtain rfl := isImm_true h1
    obtain rfl := isImm_true h2
    obtain rfl := isImm_true h3
    have hne : i + 3 ≠ j := by simpa [destSlot] using hdst
    simp only [step, hrc, res_ok_bind, hdec, liftE, offset_from_mode_immediate] at h
    obtain ⟨v1, hv1, h⟩ := res_bind_eq_ok h
    obtain ⟨v2, hv2, h⟩ := res_bind_eq_ok h
    obtain ⟨mem2, hw, h⟩ := res_bind_eq_ok h
    have htup := res_pure_eq h
    simp only [Prod.mk.injEq] at htup
    obtain ⟨hst, -, -⟩ := htup
    subst hst
    show mem2.get? j = s.opcodes.get? j
    rw [writeCell_ok hw]
    exact set_grow3_get? _ _ _ _ _ _ hj hne
  | inp m =>
    simp only [allImmediate] at hall
    obtain rfl := isImm_true hall
    have hne : i + 1 ≠ j := by simpa [destSlot] using hdst
    simp only [step, hrc, res_ok_bind, hdec, liftE, offset_from_mode_immediate] at h
    cases hinp : s.inputs with
    | nil =>
      rw [hinp] at h
      simp [throw, throwThe, MonadExceptOf.throw] at h
    | cons v rest =>
      rw [hinp] at h
      obtain ⟨mem2, hw, h⟩ := res_bind_eq_ok h
      have htup := res_pure_eq h
      simp only [Prod.mk.injEq] at htup
      obtain ⟨hst, -, -⟩ := htup
      subst hst
      show mem2.get? j = s.opcodes.get? j
      rw [writeCell_ok hw]
      exact set_grow1_get? _ _ _ _ hj hne
  | out m =>
    simp only [allImmediate] at hall
    obtain rfl := isImm_true hall
    simp only [step, hrc, res_ok_bind, hdec, liftE, offset_from_mode_immediate] at h
    obtain ⟨v1, hv1, h⟩ := res_bind_eq_ok h
    have htup := res_pure_eq h
    simp only [Prod.mk.injEq] at htup
    obtain ⟨hst, -, -⟩ := htup
    subst hst
    show (grow s.opcodes (i + 1)).get? j = s.opcodes.get? j
    exact grow_get?_lt _ _ _ hj
  | jumpIf m1 m2 =>
    simp only [allImmediate, Bool.and_eq_true] at hall
    obtain ⟨h1, h2⟩ := hall
    obtain rfl := isImm_true h1
    obtain rfl := isImm_true h2
    simp only [step, hrc, res_ok_bind, hdec, liftE, offset_from_mode_immediate] at h
    obtain ⟨v1, hv1, h⟩ := res_bind_eq_ok h
    split at h
    · obtain ⟨v2, hv2, h⟩ := res_bind_eq_ok h
      obtain ⟨o2, ho2, h⟩ := res_bind_eq_ok h
      have htup := res_pure_eq h
      simp only [Prod.mk.injEq] at htup
      obtain ⟨hst, -, -⟩ := htup
      subst hst
      show (grow (grow s.opcodes (i + 1)) (i + 2)).get? j = s.opcodes.get? j
      exact grow2_get? _ _ _ _ hj
    · have htup := res_pure_eq h
      simp only [Prod.mk.injEq] at htup
      obtain ⟨hst, -, -⟩ := htup
      subst hst
      show (grow s.opcodes (i + 1)).get? j = s.opcodes.get? j
      exact grow_get?_lt _ _ _ hj
  | jumpIfNot m1 m2 =>
    simp only [allImmediate, Bool.and_eq_true] at hall
    obtain ⟨h1, h2⟩ := hall
    obtain rfl := isImm_true h1
    obtain rfl := isImm_true h2
    simp only [step, hrc, res_ok_bind, hdec, liftE, offset_from_mode_immediate] at h
    obtain ⟨v1, hv1, h⟩ := res_bind_eq_ok h
    split at h
    · obtain ⟨v2, hv2, h⟩ := res_bind_eq_ok h
      obtain ⟨o2, ho2, h⟩ := res_bind_eq_ok h
      have htup := res_pure_eq h
      simp only [Prod.mk.injEq] at htup
      obtain ⟨hst, -, -⟩ := htup
      subst hst
      show (grow (grow s.opcodes (i + 1)) (i + 2)).get? j = s.opcodes.get? j
      exact grow2_get? _ _ _ _ hj
    · have htup := res_pure_eq h
      simp only [Prod.mk.injEq] at htup
      obtain ⟨hst, -, -⟩ := htup
      subst hst
      show (grow s.opcodes (i + 1)).get? j = s.opcodes.get? j
      exact grow_get?_lt _ _ _ hj
  | modifyBase m =>
    simp only [allImmediate] at hall
    obtain rfl := isImm_true hall
    simp only [step, hrc, res_ok_bind, hdec, liftE, offset_from_mode_immediate] at h
    obtain ⟨v1, hv1, h⟩ := res_bind_eq_ok h
    split at h
    · simp at h
    · obtain ⟨b2, hb2, h⟩ := res_bind_eq_ok h
      have htup := res_pure_eq h
      simp only [Prod.mk.injEq] at htup
      obtain ⟨hst, -, -⟩ := htup
      subst hst
      show (grow s.opcodes (i + 1)).get? j = s.opcodes.get? j
      exact grow_get?_lt _ _ _ hj
  | halt =>
    simp only [step, hrc, res_ok_bind, hdec, liftE] at h
    have htup := res_pure_eq h
    simp only [Prod.mk.injEq] at htup
    obtain ⟨hst, -, -⟩ := htup
    subst hst
    rfl

/-- C8, witness: the frame property applied to the fully-immediate add
`[11101,2,3,4]` (which writes `2 + 3` into its declared destination, the
third parameter slot at index 3), checking cell 0 is untouched. -/
theorem c8_witness :
    (St.mk [11101, 2, 3, 5] 0 [] []).opcodes.get? 0 =
      (St.mk [11101, 2, 3, 4] 0 [] []).opcodes.get? 0 :=
  c8_immediate_frame ⟨[11101, 2, 3, 4], 0, [], []⟩ 0 11101
    (.add .immediate .immediate .immediate) ⟨[11101, 2, 3, 5], 0, [], []⟩ 4 false
    rfl rfl rfl rfl 0 (by decide) (by decide)

theorem natCharsAux_small (f n : Nat) (h : n < 10) :
    natCharsAux f n = [Nat.digitChar n] := by
  cases f with
  | zero => rfl
  | succ f => rw [natCharsAux, if_pos h]

theorem natCharsAux_fuel (n : Nat) :
    ∀ f g, n ≤ f → n ≤ g → natCharsAux f n = natCharsAux g n := by
  induction n using Nat.strong_induction_on with
  | _ n ih =>
    intro f g hf hg
    by_cases h10 : n < 10
    · rw [natCharsAux_small f n h10, natCharsAux_small g n h10]
    · obtain ⟨f2, rfl⟩ : ∃ k, f = k + 1 := ⟨f - 1, by omega⟩
      obtain ⟨g2, rfl⟩ : ∃ k, g = k + 1 := ⟨g - 1, by omega⟩
      rw [natCharsAux, natCharsAux, if_neg h10, if_neg h10]
      congr 1
      exact ih (n / 10) (by omega) f2 g2 (by omega) (by omega)

theorem natChars_lt (n : Nat) (h : n < 10) : natChars n = [Nat.digitChar n] :=
  natCharsAux_small n n h

theorem natChars_ge (n : Nat) (h : 10 ≤ n) :
    natChars n = natChars (n / 10) ++ [Nat.digitChar (n % 10)] := by
  unfold natChars
  obtain ⟨m, rfl⟩ : ∃ k, n = k + 1 := ⟨n - 1, by omega⟩
  conv_lhs => rw [natCharsAux, if_neg (by omega)]
  congr 1
  exact natCharsAux_fuel ((m + 1) / 10) m ((m + 1) / 10) (by omega) (le_refl _)

theorem natChars_length_pos (n : Nat) : 1 ≤ (natChars n).length := by
  by_cases h : n < 10
  · rw [natChars_lt n h]
    simp
  · rw [natChars_ge n (by omega)]
    simp

theorem natChars_length_two (n : Nat) (h : 10 ≤ n) : 2 ≤ (natChars n).length := by
  rw [natChars_ge n h]
  have := natChars_length_pos (n / 10)
  simp only [List.length_append, List.length_cons, List.length_nil]
  omega

theorem natChars_last (n : Nat) :
    (natChars n).drop ((natChars n).length - 1) = [Nat.digitChar (n % 10)] := by
  by_cases h : n < 10
  · rw [natChars_lt n h]
    simp [Nat.mod_eq_of_lt h]
  · rw [natChars_ge n (by omega)]
    have hlen : ((natChars (n / 10)) ++ [Nat.digitChar (n % 10)]).length - 1 =
        (natChars (n / 10)).length := by simp
    rw [hlen, List.drop_left]

theorem natChars_last2 (n : Nat) (h : 10 ≤ n) :
    (natChars n).drop ((natChars n).length - 2) =
      [Nat.digitChar (n / 10 % 10), Nat.digitChar (n % 10)] := by
  rw [natChars_ge n h]
  have hL := natChars_length_pos (n / 10)
  have hlen : ((natChars (n / 10)) ++ [Nat.digitChar (n % 10)]).length - 2 =
      (natChars (n / 10)).length - 1 := by
    simp only [List.length_append, List.length_cons, List.length_nil]
    omega
  rw [hlen, List.drop_append_of_le_length (by omega), natChars_last (n / 10)]
  rfl

theorem digitVal_digitChar (d : Nat) (h : d < 10) :
    digitVal (Nat.digitChar d) = some d := by
  interval_cases d <;> decide

theorem parseNat_one (a : Nat) (ha : a < 10) : parseNat [Nat.digitChar a] = some a := by
  simp only [parseNat, parseNatAux, digitVal_digitChar a ha]
  congr 1
  omega

theorem parseNat_two (a b : Nat) (ha : a < 10) (hb : b < 10) :
    parseNat [Nat.digitChar a, Nat.digitChar b] = some (a * 10 + b) := by
  simp only [parseNat, parseNatAux, digitVal_digitChar a ha, digitVal_digitChar b hb]
  congr 1
  omega

theorem icodeOf_nonneg_small (v : Int) (hneg : ¬v < 0) (h : v.natAbs < 10) :
    icodeOf v = [Nat.digitChar v.natAbs] := by
  unfold icodeOf intChars
  rw [if_neg hneg, natChars_lt v.natAbs h]
  rfl

theorem icodeOf_neg_small (v : Int) (hneg : v < 0) (h : v.natAbs < 10) :
    icodeOf v = ['-', Nat.digitChar v.natAbs] := by
  unfold icodeOf intChars
  rw [if_pos hneg, natChars_lt v.natAbs h]
  rfl

theorem icodeOf_big (v : Int) (h : 10 ≤ v.natAbs) :
    icodeOf v = [Nat.digitChar (v.natAbs / 10 % 10), Nat.digitChar (v.natAbs % 10)] := by
  simp only [icodeOf, intChars]
  have hL := natChars_length_two v.natAbs h
  by_cases hneg : v < 0
  · rw [if_pos hneg]
    simp only [List.length_cons]
    rw [show min ((natChars v.natAbs).length + 1) 2 = 2 from by omega,
      show (natChars v.natAbs).length + 1 - 2 = ((natChars v.natAbs).length - 2) + 1 from by
        omega,
      List.drop_succ_cons]
    exact natChars_last2 v.natAbs h
  · rw [if_neg hneg]
    rw [show min (natChars v.natAbs).length 2 = 2 from by omega]
    exact natChars_last2 v.natAbs h

/-- Whether a decode result is the `InvalidInstruction` error. -/
def isInvalidInstruction : Except Err Instruction → Bool
  | .error (.invalidInstruction _) => true
  | _ => false

theorem dispatch_not_in (code : Nat) (rest : List Char)
    (h : code ∉ ([1, 2, 3, 4, 5, 6, 7, 8, 9, 99] : List Nat)) :
    dispatch code rest = .error (.invalidInstruction (toString code)) := by
  simp only [List.mem_cons, List.not_mem_nil, or_false, not_or] at h
  obtain ⟨h1, h2, h3, h4, h5, h6, h7, h8, h9, h99⟩ := h
  unfold dispatch
  rw [if_neg h1, if_neg h2, if_neg h3, if_neg h4, if_neg h5, if_neg h6, if_neg h7,
    if_neg h8, if_neg h9, if_neg h99]

/-- C5: for every signed 64-bit cell value whose numeric opcode (its two
least-significant decimal digits) is not one of {1,…,9,99} — including 0,
negative values, and values like 42 or 98 — `Instruction::try_from` fails
with the `InvalidInstruction` error and never produces an instruction by any
default or fall-through behaviour. -/
theorem c5_invalid_opcode (v : Int)
    (hlo : -(2 ^ 63) ≤ v) (hhi : v < 2 ^ 63)
    (h : v.natAbs % 100 ∉ ([1, 2, 3, 4, 5, 6, 7, 8, 9, 99] : List Nat)) :
    isInvalidInstruction (decode v) = true := by
  unfold decode
  by_cases hsmall : v.natAbs < 10
  · by_cases hneg : v < 0
    · rw [icodeOf_neg_small v hneg hsmall,
        show parseNat ['-', Nat.digitChar v.natAbs] = none from rfl]
      rfl
    · rw [icodeOf_nonneg_small v hneg hsmall, parseNat_one v.natAbs hsmall]
      show isInvalidInstruction (dispatch v.natAbs (restOf v)) = true
      rw [dispatch_not_in _ _ (by rwa [Nat.mod_eq_of_lt (by omega)] at h)]
      rfl
  · rw [icodeOf_big v (by omega),
      parseNat_two _ _ (Nat.mod_lt _ (by norm_num)) (Nat.mod_lt _ (by norm_num)),
      show v.natAbs / 10 % 10 * 10 + v.natAbs % 10 = v.natAbs % 100 from by omega]
    show isInvalidInstruction (dispatch (v.natAbs % 100) (restOf v)) = true
    rw [dispatch_not_in _ _ h]
    rfl

/-- C5, witness: the decoder property at the concrete cell value 42. -/
theorem c5_witness : isInvalidInstruction (decode 42) = true :=
  c5_invalid_opcode 42 (by norm_num) (by norm_num) (by decide)

end Intcode

namespace Day07

/-!
The amplifier variant of the VM from `2019-12-07/src/main.rs`: its `Mode`
has no relative mode, its memory never grows (an offset at or beyond the
current length is the `OutOfBound` error), and there is no opcode 9.  Each
`process_opcode` worker runs on its own thread; any error makes the worker
`unwrap`-panic, and a worker that returns (by `Halt` or by the program
counter leaving memory) ends its thread the same way as far as its channel
peers can observe: its endpoints are dropped.  The model therefore folds
every terminating outcome of a worker into a single "finished" state,
distinguished from "blocked waiting for input".

The feedback topology of `optimize_thrusters` (loopback feature) is
modelled as the deterministic dataflow network of the five workers plus the
driving loop: each worker is a deterministic stream function and the mpsc
channels are FIFO queues, so the exchanged values do not depend on thread
scheduling (a Kahn network); the driver forwards each value it receives
from the last amplifier back to the first one, remembering the last
received value, and stops when a send fails, i.e. when the first
amplifier's thread has finished and dropped its receiving endpoint.

Because the whole feedback computation is evaluated inside the kernel for
all 120 phase permutations, the hot definitions (memory reads and writes,
the worker loop and the decimal formatting) are written with bare `Nat.rec`
and `List.rec` recursors — semantically the ordinary structural recursions
of the Rust loops, but avoiding the quadratic `brecOn` unfolding of
pattern-matching definitions.  Memory is a `Vec<i64>` model carrying its
stored length (`Vec::len()` is a field read in Rust, and in-bounds writes
preserve it).
-/

/-- Day-07 copy of the decimal formatting of `to_string` (the day-07 source
duplicates the decoder); written with a bare `Nat.rec` so that kernel
reduction of the concrete feedback-loop computation stays linear. -/
def natChars07 (fuel : Nat) : Nat → List Char :=
  Nat.rec (motive := fun _ => Nat → List Char)
    (fun n => [Nat.digitChar n])
    (fun _ ih n =>
      if n < 10 then [Nat.digitChar n] else ih (n / 10) ++ [Nat.digitChar (n % 10)])
    fuel

/-- Day-07 copy of `i64::to_string` as a character list. -/
def intChars07 (v : Int) : List Char :=
  if v < 0 then '-' :: natChars07 v.natAbs v.natAbs else natChars07 v.natAbs v.natAbs

/-- Day-07 copy of the digit-run parser (`str::parse::<usize>`). -/
def parseNatAux07 : List Char → Nat → Option Nat :=
  List.rec (motive := fun _ => Nat → Option Nat)
    (fun acc => some acc)
    (fun c _ ih acc =>
      match Intcode.digitVal c with
      | some d => ih (acc * 10 + d)
      | none => none)

/-- Day-07 copy of `parse::<usize>`: fails on the empty string. -/
def parseNat07 (cs : List Char) : Option Nat :=
  match cs with
  | [] => none
  | _ :: _ => parseNatAux07 cs 0

/-- Day-07 copy of the `instruction_code` slice. -/
def icodeOf07 (intcode : Int) : List Char :=
  let cs := intChars07 intcode
  cs.drop (cs.length - min cs.length 2)

/-- Day-07 copy of the truncated-and-reversed mode string. -/
def restOf07 (intcode : Int) : List Char :=
  let cs := intChars07 intcode
  (cs.take (cs.length - (icodeOf07 intcode).length)).reverse

/-- Memory read (`program[i]` guarded by `get?`), written with a bare
`List.rec` for linear kernel reduction. -/
def lget (l : List Int) (k : Nat) : Option Int :=
  List.rec (motive := fun _ => Nat → Option Int)
    (fun _ => none)
    (fun x _ ih k => Nat.casesOn k (some x) fun k2 => ih k2)
    l k

/-- Memory write (`program[i] = v`), written with a bare `List.rec`. -/
def lset (l : List Int) (k : Nat) (v : Int) : List Int :=
  List.rec (motive := fun _ => Nat → List Int)
    (fun _ => [])
    (fun x xs ih k => Nat.casesOn k (v :: xs) fun k2 => x :: ih k2)
    l k

/-- Memory length, written with a bare `List.rec`. -/
def llen (l : List Int) : Nat :=
  List.rec (motive := fun _ => Nat) 0 (fun _ _ ih => ih + 1) l

/-- A `Vec<i64>`: its cell list together with the stored length field
(`Vec::len()` is a field read in Rust, not a traversal).  Writes through
`set` keep the length, as `program[i] = v` does. -/
structure VecI where
  data : List Int
  length : Nat
  deriving Repr, DecidableEq

/-- Build the `Vec` for an initial program. -/
def VecI.ofList (l : List Int) : VecI := ⟨l, llen l⟩

/-- `program[i]` as a checked read. -/
def VecI.get? (v : VecI) (k : Nat) : Option Int := lget v.data k

/-- `program[i] = x` (the guarded writes never go out of bounds, and an
in-bounds write keeps the length). -/
def VecI.set (v : VecI) (k : Nat) (x : Int) : VecI := ⟨lset v.data k x, v.length⟩

/-- The two addressing modes of the day-07 VM. -/
inductive D7Mode where
  | immediate
  | position
  deriving Repr, DecidableEq

/-- The day-07 instruction set (no `ModifyBase`). -/
inductive D7Inst where
  | add (op1 op2 result : D7Mode)
  | multiply (op1 op2 result : D7Mode)
  | inp (m : D7Mode)
  | out (m : D7Mode)
  | jumpIf (condition pointer : D7Mode)
  | jumpIfNot (condition pointer : D7Mode)
  | lessThan (op1 op2 result : D7Mode)
  | equals (op1 op2 result : D7Mode)
  | halt
  deriving Repr, DecidableEq

/-- Day-07 `Mode::try_from`: only `"0"` and `"1"` are valid. -/
def modeOfChar07 (c : Char) : Option D7Mode :=
  if c = '0' then some .position
  else if c = '1' then some .immediate
  else none

/-- Day-07 mode of parameter `k` from the reversed mode string. -/
def modeAt07 (rest : List Char) (k : Nat) : Option D7Mode :=
  modeOfChar07 (rest.getD k '0')

/-- The day-07 `match instruction_code` dispatch (opcodes 1-8 and 99). -/
def dispatch07 (code : Nat) (rest : List Char) : Option D7Inst :=
  if code = 1 then do
    pure (.add (← modeAt07 rest 0) (← modeAt07 rest 1) (← modeAt07 rest 2))
  else if code = 2 then do
    pure (.multiply (← modeAt07 rest 0) (← modeAt07 rest 1) (← modeAt07 rest 2))
  else if code = 3 then do
    pure (.inp (← modeAt07 rest 0))
  else if code = 4 then do
    pure (.out (← modeAt07 rest 0))
  else if code = 5 then do
    pure (.jumpIf (← modeAt07 rest 0) (← modeAt07 rest 1))
  else if code = 6 then do
    pure (.jumpIfNot (← modeAt07 rest 0) (← modeAt07 rest 1))
  else if code = 7 then do
    pure (.lessThan (← modeAt07 rest 0) (← modeAt07 rest 1) (← modeAt07 rest 2))
  else if code = 8 then do
    pure (.equals (← modeAt07 rest 0) (← modeAt07 rest 1) (← modeAt07 rest 2))
  else if code = 99 then
    pure .halt
  else
    none

/-- The day-07 `Instruction::try_from`, sharing the string slicing of the
engine's decoder (the Rust code is identical); `none` is any decode error
(which the worker thread turns into a panic). -/
def decode07 (intcode : Int) : Option D7Inst :=
  match parseNat07 (icodeOf07 intcode) with
  | none => none
  | some code => dispatch07 code (restOf07 intcode)

/-- The `offset_from_mode!` macro of `process_opcode`: resolve the parameter
at `index`, then bounds-check the offset against the (never growing) memory;
`none` is any failure (negative offset, out-of-bounds offset, or the panic
from reading a parameter slot that is itself out of bounds). -/
def offset07 (program : VecI) (index : Nat) (mode : D7Mode) : Option Nat :=
  let raw : Option Nat :=
    match mode with
    | .immediate => some index
    | .position =>
      match program.get? index with
      | some v => if v < 0 then none else some v.toNat
      | none => none
  match raw with
  | some o => if o < program.length then some o else none
  | none => none

/-- One amplifier worker: its memory, program counter and queued (already
sent but not yet received) channel inputs. -/
structure Amp where
  mem : VecI
  pc : Nat
  inQ : List Int
  deriving Repr, DecidableEq

/-- Result of one instruction of a worker: continue (with an optional value
sent on its output channel), block on an empty input channel, or finish the
thread (halt, program counter past the end, or any error/panic). -/
inductive StepRes where
  | next (a : Amp) (sent : Option Int)
  | wait
  | dead
  deriving Repr, DecidableEq

/-- One iteration of the `process_opcode` loop for one worker. -/
def exec3 (a : Amp) (i : Nat) (m1 m2 m3 : D7Mode) (f : Int → Int → Int) : StepRes :=
  match offset07 a.mem i m1, offset07 a.mem (i + 1) m2, offset07 a.mem (i + 2) m3 with
  | some o1, some o2, some o3 =>
    match a.mem.get? o1, a.mem.get? o2 with
    | some v1, some v2 => .next { a with mem := VecI.set a.mem o3 (f v1 v2), pc := i + 3 } none
    | _, _ => .dead
  | _, _, _ => .dead

def execInp (a : Amp) (i : Nat) (m : D7Mode) : StepRes :=
  match offset07 a.mem i m with
  | some o =>
    match a.inQ with
    | [] => .wait
    | v :: rest => .next { a with mem := VecI.set a.mem o v, pc := i + 1, inQ := rest } none
  | none => .dead

def execOut (a : Amp) (i : Nat) (m : D7Mode) : StepRes :=
  match offset07 a.mem i m with
  | some o =>
    match a.mem.get? o with
    | some v => .next { a with pc := i + 1 } (some v)
    | none => .dead
  | none => .dead

def execJump (a : Amp) (i : Nat) (m1 m2 : D7Mode) (taken : Int → Bool) : StepRes :=
  match offset07 a.mem i m1 with
  | some o1 =>
    match a.mem.get? o1 with
    | some c =>
      if taken c then
        match offset07 a.mem (i + 1) m2 with
        | some o2 =>
          match a.mem.get? o2 with
          | some t => if t < 0 then .dead else .next { a with pc := t.toNat } none
          | none => .dead
        | none => .dead
      else .next { a with pc := i + 2 } none
    | none => .dead
  | none => .dead

def step07 (a : Amp) : StepRes :=
  if a.pc ≥ a.mem.length then .dead
  else
    match a.mem.get? a.pc with
    | none => .dead
    | some cell =>
      match decode07 cell with
      | none => .dead
      | some instr =>
        let i := a.pc + 1
        match instr with
        | .add m1 m2 m3 => exec3 a i m1 m2 m3 (fun x y => x + y)
        | .multiply m1 m2 m3 => exec3 a i m1 m2 m3 (fun x y => x * y)
        | .inp m => execInp a i m
        | .out m => execOut a i m
        | .jumpIf m1 m2 => execJump a i m1 m2 fun c => decide (c ≠ 0)
        | .jumpIfNot m1 m2 => execJump a i m1 m2 fun c => decide (c = 0)
        | .lessThan m1 m2 m3 => exec3 a i m1 m2 m3 (fun x y => if x < y then 1 else 0)
        | .equals m1 m2 m3 => exec3 a i m1 m2 m3 (fun x y => if x = y then 1 else 0)
        | .halt => .dead

/-- Run one worker until it blocks on input, finishes, or exhausts the given
fuel; returns the final worker, the values it sent (in order), and whether
its thread finished. -/
def ampRun (fuel : Nat) : Amp → List Int → Amp × List Int × Bool :=
  Nat.rec (motive := fun _ => Amp → List Int → Amp × List Int × Bool)
    (fun a acc => (a, acc, false))
    (fun _ ih a acc =>
      match step07 a with
      | .dead => (a, acc, true)
      | .wait => (a, acc, false)
      | .next a2 none => ih a2 acc
      | .next a2 (some v) => ih a2 (acc ++ [v]))
    fuel

/-- Run the chain of workers in pipeline order, feeding each worker's sent
values into the next worker's input queue; returns the updated workers (with
their finished flags) and the values sent by the last worker. -/
def runChain (fuel : Nat) : List (Amp × Bool) → List Int → List (Amp × Bool) × List Int
  | [], incoming => ([], incoming)
  | (a, fin) :: rest, incoming =>
    let (a2, outs, fin2) := ampRun fuel { a with inQ := a.inQ ++ incoming } []
    let (rest2, final) := runChain fuel rest outs
    ((a2, fin || fin2) :: rest2, final)

/-- The driving loop of the loopback `optimize_thrusters`: consume the
values received from the last amplifier one at a time, remembering each as
the last observed value and forwarding it to the first amplifier; when the
first amplifier's thread has finished, the send fails and the loop stops.
Returns the forwarded values, the last observed value, and whether the loop
stopped. -/
def driverFeed : List Int → Int → Bool → List Int × Int × Bool
  | [], last, _ => ([], last, false)
  | v :: vs, _, amp1fin =>
    if amp1fin then ([], v, true)
    else
      let (fwd, last2, st) := driverFeed vs v amp1fin
      (v :: fwd, last2, st)

/-- The state of the feedback network: the five workers (with finished
flags), the values sent by the last worker and not yet consumed by the
driver, the last value the driver observed, and whether the driver has
stopped forwarding. -/
structure Net where
  amps : List (Amp × Bool)
  pending : List Int
  last : Int
  stopped : Bool
  deriving Repr, DecidableEq

/-- One scheduling pass of the network: run every worker to quiescence in
pipeline order, then let the driver consume and forward the resulting
values. -/
def netPass (fuel : Nat) (n : Net) : Net :=
  if n.stopped then n
  else
    match runChain fuel n.amps [] with
    | ([], _) => { amps := [], pending := [], last := n.last, stopped := true }
    | ((a, fin) :: rest, outs) =>
      match driverFeed (n.pending ++ outs) n.last fin with
      | (fwd, last2, st) =>
        { amps := ({ a with inQ := a.inQ ++ fwd }, fin) :: rest, pending := [],
          last := last2, stopped := st }

/-- Iterate scheduling passes. -/
def runNet : Nat → Nat → Net → Net
  | 0, _, n => n
  | passes + 1, fuel, n => runNet passes fuel (netPass fuel n)

/-- The feedback loop of `optimize_thrusters` for one phase permutation:
each worker is seeded with its phase setting, the first worker additionally
with the initial signal 0; the result is the last value the driver observed
on the loop when forwarding stopped. -/
def feedbackSignal (prog : List Int) (phases : List Int) : Int :=
  let amps := phases.map fun p => ((⟨VecI.ofList prog, 0, [p]⟩ : Amp), false)
  let amps :=
    match amps with
    | (a, fin) :: rest => ({ a with inQ := a.inQ ++ [0] }, fin) :: rest
    | [] => []
  (runNet 20 99 { amps := amps, pending := [], last := 0, stopped := false }).last

/-- `phase_settings_combinations`: all orderings of the given settings,
mirroring the recursive Rust construction (singleton base case; otherwise
pick each setting, retain the others, and prepend).  The first argument is
recursion fuel, instantiated with the length of the setting list. -/
def phase_settings_combinations : Nat → List Int → List (List Int)
  | 0, _ => []
  | fuel + 1, settings =>
    if settings.length = 1 then [[settings.headD 0]]
    else
      settings.flatMap fun setting =>
        (phase_settings_combinations fuel (settings.filter fun s => s ≠ setting)).map
          fun comb => setting :: comb

/-- The loopback `optimize_thrusters`: the maximum feedback signal over all
permutations of the phase settings `[5,6,7,8,9]`, starting from 0 and
updating whenever a permutation's signal is strictly greater. -/
def optimize_thrusters (prog : List Int) : Int :=
  (phase_settings_combinations 5 [5, 6, 7, 8, 9]).foldl
    (fun best phases =>
      let output := feedbackSignal prog phases
      if best < output then output else best)
    0

/-- The feedback-loop program of the spec's thruster test. -/
def prog07 : List Int :=
  [3, 26, 1001, 26, -4, 26, 3, 27, 1002, 27, 2, 27, 1, 27, 26, 27, 4, 27,
    1001, 28, -1, 28, 1005, 28, 6, 99, 0, 0, 5]

/-- The 120 phase permutations, in the order `phase_settings_combinations`
produces them. -/
def d7perms : List (List Int) :=
  [[5, 6, 7, 8, 9],
      [5, 6, 7, 9, 8],
      [5, 6, 8, 7, 9],
      [5, 6, 8, 9, 7],
      [5, 6, 9, 7, 8],
      [5, 6, 9, 8, 7],
      [5, 7, 6, 8, 9],
      [5, 7, 6, 9, 8],
      [5, 7, 8, 6, 9],
      [5, 7, 8, 9, 6],
      [5, 7, 9, 6, 8],
      [5, 7, 9, 8, 6],
      [5, 8, 6, 7, 9],
      [5, 8, 6, 9, 7],
      [5, 8, 7, 6, 9],
      [5, 8, 7, 9, 6],
      [5, 8, 9, 6, 7],
      [5, 8, 9, 7, 6],
      [5, 9, 6, 7, 8],
      [5, 9, 6, 8, 7],
      [5, 9, 7, 6, 8],
      [5, 9, 7, 8, 6],
      [5, 9, 8, 6, 7],
      [5, 9, 8, 7, 6],
      [6, 5, 7, 8, 9],
      [6, 5, 7, 9, 8],
      [6, 5, 8, 7, 9],
      [6, 5, 8, 9, 7],
      [6, 5, 9, 7, 8],
      [6, 5, 9, 8, 7],
      [6, 7, 5, 8, 9],
      [6, 7, 5, 9, 8],
      [6, 7, 8, 5, 9],
      [6, 7, 8, 9, 5],
      [6, 7, 9, 5, 8],
      [6, 7, 9, 8, 5],
      [6, 8, 5, 7, 9],
      [6, 8, 5, 9, 7],
      [6, 8, 7, 5, 9],
      [6, 8, 7, 9, 5],
      [6, 8, 9, 5, 7],
      [6, 8, 9, 7, 5],
      [6, 9, 5, 7, 8],
      [6, 9, 5, 8, 7],
      [6, 9, 7, 5, 8],
      [6, 9, 7, 8, 5],
      [6, 9, 8, 5, 7],
      [6, 9, 8, 7, 5],
      [7, 5, 6, 8, 9],
      [7, 5, 6, 9, 8],
      [7, 5, 8, 6, 9],
      [7, 5, 8, 9, 6],
      [7, 5, 9, 6, 8],
      [7, 5, 9, 8, 6],
      [7, 6, 5, 8, 9],
      [7, 6, 5, 9, 8],
      [7, 6, 8, 5, 9],
      [7, 6, 8, 9, 5],
      [7, 6, 9, 5, 8],
      [7, 6, 9, 8, 5],
      [7, 8, 5, 6, 9],
      [7, 8, 5, 9, 6],
      [7, 8, 6, 5, 9],
      [7, 8, 6, 9, 5],
      [7, 8, 9, 5, 6],
      [7, 8, 9, 6, 5],
      [7, 9, 5, 6, 8],
      [7, 9, 5, 8, 6],
      [7, 9, 6, 5, 8],
      [7, 9, 6, 8, 5],
      [7, 9, 8, 5, 6],
      [7, 9, 8, 6, 5],
      [8, 5, 6, 7, 9],
      [8, 5, 6, 9, 7],
      [8, 5, 7, 6, 9],
      [8, 5, 7, 9, 6],
      [8, 5, 9, 6, 7],
      [8, 5, 9, 7, 6],
      [8, 6, 5, 7, 9],
      [8, 6, 5, 9, 7],
      [8, 6, 7, 5, 9],
      [8, 6, 7, 9, 5],
      [8, 6, 9, 5, 7],
      [8, 6, 9, 7, 5],
      [8, 7, 5, 6, 9],
      [8, 7, 5, 9, 6],
      [8, 7, 6, 5, 9],
      [8, 7, 6, 9, 5],
      [8, 7, 9, 5, 6],
      [8, 7, 9, 6, 5],
      [8, 9, 5, 6, 7],
      [8, 9, 5, 7, 6],
      [8, 9, 6, 5, 7],
      [8, 9, 6, 7, 5],
      [8, 9, 7, 5, 6],
      [8, 9, 7, 6, 5],
      [9, 5, 6, 7, 8],
      [9, 5, 6, 8, 7],
      [9, 5, 7, 6, 8],
      [9, 5, 7, 8, 6],
      [9, 5, 8, 6, 7],
      [9, 5, 8, 7, 6],
      [9, 6, 5, 7, 8],
      [9, 6, 5, 8, 7],
      [9, 6, 7, 5, 8],
      [9, 6, 7, 8, 5],
      [9, 6, 8, 5, 7],
      [9, 6, 8, 7, 5],
      [9, 7, 5, 6, 8],
      [9, 7, 5, 8, 6],
      [9, 7, 6, 5, 8],
      [9, 7, 6, 8, 5],
      [9, 7, 8, 5, 6],
      [9, 7, 8, 6, 5],
      [9, 8, 5, 6, 7],
      [9, 8, 5, 7, 6],
      [9, 8, 6, 5, 7],
      [9, 8, 6, 7, 5],
      [9, 8, 7, 5, 6],
      [9, 8, 7, 6, 5]]

/-- The feedback signal of each permutation of `d7perms`, in order. -/
def d7sigValues : List Int :=
  [61696857,
      62779258,
      63861659,
      66026461,
      67108862,
      68191263,
      66026461,
      67108862,
      70356065,
      73603268,
      73603268,
      75768070,
      72520867,
      74685669,
      74685669,
      77932872,
      81180075,
      82262476,
      80097674,
      81180075,
      82262476,
      84427278,
      85509679,
      86592080,
      70356065,
      71438466,
      72520867,
      74685669,
      75768070,
      76850471,
      79015273,
      80097674,
      85509679,
      89839283,
      88756882,
      92004085,
      85509679,
      87674481,
      89839283,
      94168887,
      96333689,
      98498491,
      93086486,
      94168887,
      97416090,
      100663293,
      100663293,
      102828095,
      83344877,
      84427278,
      87674481,
      90921684,
      90921684,
      93086486,
      87674481,
      88756882,
      94168887,
      98498491,
      97416090,
      100663293,
      100663293,
      103910496,
      102828095,
      107157699,
      112569704,
      113652105,
      108240100,
      110404902,
      110404902,
      113652105,
      116899308,
      117981709,
      98498491,
      100663293,
      100663293,
      103910496,
      107157699,
      108240100,
      102828095,
      104992897,
      107157699,
      111487303,
      113652105,
      115816907,
      109322501,
      112569704,
      111487303,
      115816907,
      121228912,
      122311313,
      124476115,
      125558516,
      126640917,
      128805719,
      129888120,
      130970521,
      114734506,
      115816907,
      116899308,
      119064110,
      120146511,
      121228912,
      119064110,
      120146511,
      123393714,
      126640917,
      126640917,
      128805719,
      125558516,
      127723318,
      127723318,
      130970521,
      134217724,
      135300125,
      133135323,
      134217724,
      135300125,
      137464927,
      138547328,
      139629729]

set_option maxHeartbeats 1600000

theorem d7sig_0 : feedbackSignal prog07 [5, 6, 7, 8, 9] = 61696857 := by
  decide

theorem d7sig_1 : feedbackSignal prog07 [5, 6, 7, 9, 8] = 62779258 := by
  decide

theorem d7sig_2 : feedbackSignal prog07 [5, 6, 8, 7, 9] = 63861659 := by
  decide

theorem d7sig_3 : feedbackSignal prog07 [5, 6, 8, 9, 7] = 66026461 := by
  decide

theorem d7sig_4 : feedbackSignal prog07 [5, 6, 9, 7, 8] = 67108862 := by
  decide

theorem d7sig_5 : feedbackSignal prog07 [5, 6, 9, 8, 7] = 68191263 := by
  decide

theorem d7sig_6 : feedbackSignal prog07 [5, 7, 6, 8, 9] = 66026461 := by
  decide

theorem d7sig_7 : feedbackSignal prog07 [5, 7, 6, 9, 8] = 67108862 := by
  decide

theorem d7sig_8 : feedbackSignal prog07 [5, 7, 8, 6, 9] = 70356065 := by
  decide

theorem d7sig_9 : feedbackSignal prog07 [5, 7, 8, 9, 6] = 73603268 := by
  decide

theorem d7sig_10 : feedbackSignal prog07 [5, 7, 9, 6, 8] = 73603268 := by
  decide

theorem d7sig_11 : feedbackSignal prog07 [5, 7, 9, 8, 6] = 75768070 := by
  decide

theorem d7sig_12 : feedbackSignal prog07 [5, 8, 6, 7, 9] = 72520867 := by
  decide

theorem d7sig_13 : feedbackSignal prog07 [5, 8, 6, 9, 7] = 74685669 := by
  decide

theorem d7sig_14 : feedbackSignal prog07 [5, 8, 7, 6, 9] = 74685669 := by
  decide

theorem d7sig_15 : feedbackSignal prog07 [5, 8, 7, 9, 6] = 77932872 := by
  decide

theorem d7sig_16 : feedbackSignal prog07 [5, 8, 9, 6, 7] = 81180075 := by
  decide

theorem d7sig_17 : feedbackSignal prog07 [5, 8, 9, 7, 6] = 82262476 := by
  decide

theorem d7sig_18 : feedbackSignal prog07 [5, 9, 6, 7, 8] = 80097674 := by
  decide

theorem d7sig_19 : feedbackSignal prog07 [5, 9, 6, 8, 7] = 81180075 := by
  decide

theorem d7sig_20 : feedbackSignal prog07 [5, 9, 7, 6, 8] = 82262476 := by
  decide

theorem d7sig_21 : feedbackSignal prog07 [5, 9, 7, 8, 6] = 84427278 := by
  decide

theorem d7sig_22 : feedbackSignal prog07 [5, 9, 8, 6, 7] = 85509679 := by
  decide

theorem d7sig_23 : feedbackSignal prog07 [5, 9, 8, 7, 6] = 86592080 := by
  decide

theorem d7sig_24 : feedbackSignal prog07 [6, 5, 7, 8, 9] = 70356065 := by
  decide

theorem d7sig_25 : feedbackSignal prog07 [6, 5, 7, 9, 8] = 71438466 := by
  decide

theorem d7sig_26 : feedbackSignal prog07 [6, 5, 8, 7, 9] = 72520867 := by
  decide

theorem d7sig_27 : feedbackSignal prog07 [6, 5, 8, 9, 7] = 74685669 := by
  decide

theorem d7sig_28 : feedbackSignal prog07 [6, 5, 9, 7, 8] = 75768070 := by
  decide

theorem d7sig_29 : feedbackSignal prog07 [6, 5, 9, 8, 7] = 76850471 := by
  decide

theorem d7sig_30 : feedbackSignal prog07 [6, 7, 5, 8, 9] = 79015273 := by
  decide

theorem d7sig_31 : feedbackSignal prog07 [6, 7, 5, 9, 8] = 80097674 := by
  decide

theorem d7sig_32 : feedbackSignal prog07 [6, 7, 8, 5, 9] = 85509679 := by
  decide

theorem d7sig_33 : feedbackSignal prog07 [6, 7, 8, 9, 5] = 89839283 := by
  decide

theorem d7sig_34 : feedbackSignal prog07 [6, 7, 9, 5, 8] = 88756882 := by
  decide

theorem d7sig_35 : feedbackSignal prog07 [6, 7, 9, 8, 5] = 92004085 := by
  decide

theorem d7sig_36 : feedbackSignal prog07 [6, 8, 5, 7, 9] = 85509679 := by
  decide

theorem d7sig_37 : feedbackSignal prog07 [6, 8, 5, 9, 7] = 87674481 := by
  decide

theorem d7sig_38 : feedbackSignal prog07 [6, 8, 7, 5, 9] = 89839283 := by
  decide

theorem d7sig_39 : feedbackSignal prog07 [6, 8, 7, 9, 5] = 94168887 := by
  decide

theorem d7sig_40 : feedbackSignal prog07 [6, 8, 9, 5, 7] = 96333689 := by
  decide

theorem d7sig_41 : feedbackSignal prog07 [6, 8, 9, 7, 5] = 98498491 := by
  decide

theorem d7sig_42 : feedbackSignal prog07 [6, 9, 5, 7, 8] = 93086486 := by
  decide

theorem d7sig_43 : feedbackSignal prog07 [6, 9, 5, 8, 7] = 94168887 := by
  decide

theorem d7sig_44 : feedbackSignal prog07 [6, 9, 7, 5, 8] = 97416090 := by
  decide

theorem d7sig_45 : feedbackSignal prog07 [6, 9, 7, 8, 5] = 100663293 := by
  decide

theorem d7sig_46 : feedbackSignal prog07 [6, 9, 8, 5, 7] = 100663293 := by
  decide

theorem d7sig_47 : feedbackSignal prog07 [6, 9, 8, 7, 5] = 102828095 := by
  decide

theorem d7sig_48 : feedbackSignal prog07 [7, 5, 6, 8, 9] = 83344877 := by
  decide

theorem d7sig_49 : feedbackSignal prog07 [7, 5, 6, 9, 8] = 84427278 := by
  decide

theorem d7sig_50 : feedbackSignal prog07 [7, 5, 8, 6, 9] = 87674481 := by
  decide

theorem d7sig_51 : feedbackSignal prog07 [7, 5, 8, 9, 6] = 90921684 := by
  decide

theorem d7sig_52 : feedbackSignal prog07 [7, 5, 9, 6, 8] = 90921684 := by
  decide

theorem d7sig_53 : feedbackSignal prog07 [7, 5, 9, 8, 6] = 93086486 := by
  decide

theorem d7sig_54 : feedbackSignal prog07 [7, 6, 5, 8, 9] = 87674481 := by
  decide

theorem d7sig_55 : feedbackSignal prog07 [7, 6, 5, 9, 8] = 88756882 := by
  decide

theorem d7sig_56 : feedbackSignal prog07 [7, 6, 8, 5, 9] = 94168887 := by
  decide

theorem d7sig_57 : feedbackSignal prog07 [7, 6, 8, 9, 5] = 98498491 := by
  decide

theorem d7sig_58 : feedbackSignal prog07 [7, 6, 9, 5, 8] = 97416090 := by
  decide

theorem d7sig_59 : feedbackSignal prog07 [7, 6, 9, 8, 5] = 100663293 := by
  decide

theorem d7sig_60 : feedbackSignal prog07 [7, 8, 5, 6, 9] = 100663293 := by
  decide

theorem d7sig_61 : feedbackSignal prog07 [7, 8, 5, 9, 6] = 103910496 := by
  decide

theorem d7sig_62 : feedbackSignal prog07 [7, 8, 6, 5, 9] = 102828095 := by
  decide

theorem d7sig_63 : feedbackSignal prog07 [7, 8, 6, 9, 5] = 107157699 := by
  decide

theorem d7sig_64 : feedbackSignal prog07 [7, 8, 9, 5, 6] = 112569704 := by
  decide

theorem d7sig_65 : feedbackSignal prog07 [7, 8, 9, 6, 5] = 113652105 := by
  decide

theorem d7sig_66 : feedbackSignal prog07 [7, 9, 5, 6, 8] = 108240100 := by
  decide

theorem d7sig_67 : feedbackSignal prog07 [7, 9, 5, 8, 6] = 110404902 := by
  decide

theorem d7sig_68 : feedbackSignal prog07 [7, 9, 6, 5, 8] = 110404902 := by
  decide

theorem d7sig_69 : feedbackSignal prog07 [7, 9, 6, 8, 5] = 113652105 := by
  decide

theorem d7sig_70 : feedbackSignal prog07 [7, 9, 8, 5, 6] = 116899308 := by
  decide

theorem d7sig_71 : feedbackSignal prog07 [7, 9, 8, 6, 5] = 117981709 := by
  decide

theorem d7sig_72 : feedbackSignal prog07 [8, 5, 6, 7, 9] = 98498491 := by
  decide

theorem d7sig_73 : feedbackSignal prog07 [8, 5, 6, 9, 7] = 100663293 := by
  decide

theorem d7sig_74 : feedbackSignal prog07 [8, 5, 7, 6, 9] = 100663293 := by
  decide

theorem d7sig_75 : feedbackSignal prog07 [8, 5, 7, 9, 6] = 103910496 := by
  decide

theorem d7sig_76 : feedbackSignal prog07 [8, 5, 9, 6, 7] = 107157699 := by
  decide

theorem d7sig_77 : feedbackSignal prog07 [8, 5, 9, 7, 6] = 108240100 := by
  decide

theorem d7sig_78 : feedbackSignal prog07 [8, 6, 5, 7, 9] = 102828095 := by
  decide

theorem d7sig_79 : feedbackSignal prog07 [8, 6, 5, 9, 7] = 104992897 := by
  decide

theorem d7sig_80 : feedbackSignal prog07 [8, 6, 7, 5, 9] = 107157699 := by
  decide

theorem d7sig_81 : feedbackSignal prog07 [8, 6, 7, 9, 5] = 111487303 := by
  decide

theorem d7sig_82 : feedbackSignal prog07 [8, 6, 9, 5, 7] = 113652105 := by
  decide

theorem d7sig_83 : feedbackSignal prog07 [8, 6, 9, 7, 5] = 115816907 := by
  decide

theorem d7sig_84 : feedbackSignal prog07 [8, 7, 5, 6, 9] = 109322501 := by
  decide

theorem d7sig_85 : feedbackSignal prog07 [8, 7, 5, 9, 6] = 112569704 := by
  decide

theorem d7sig_86 : feedbackSignal prog07 [8, 7, 6, 5, 9] = 111487303 := by
  decide

theorem d7sig_87 : feedbackSignal prog07 [8, 7, 6, 9, 5] = 115816907 := by
  decide

theorem d7sig_88 : feedbackSignal prog07 [8, 7, 9, 5, 6] = 121228912 := by
  decide

theorem d7sig_89 : feedbackSignal prog07 [8, 7, 9, 6, 5] = 122311313 := by
  decide

theorem d7sig_90 : feedbackSignal prog07 [8, 9, 5, 6, 7] = 124476115 := by
  decide

theorem d7sig_91 : feedbackSignal prog07 [8, 9, 5, 7, 6] = 125558516 := by
  decide

theorem d7sig_92 : feedbackSignal prog07 [8, 9, 6, 5, 7] = 126640917 := by
  decide

theorem d7sig_93 : feedbackSignal prog07 [8, 9, 6, 7, 5] = 128805719 := by
  decide

theorem d7sig_94 : feedbackSignal prog07 [8, 9, 7, 5, 6] = 129888120 := by
  decide

theorem d7sig_95 : feedbackSignal prog07 [8, 9, 7, 6, 5] = 130970521 := by
  decide

theorem d7sig_96 : feedbackSignal prog07 [9, 5, 6, 7, 8] = 114734506 := by
  decide

theorem d7sig_97 : feedbackSignal prog07 [9, 5, 6, 8, 7] = 115816907 := by
  decide

theorem d7sig_98 : feedbackSignal prog07 [9, 5, 7, 6, 8] = 116899308 := by
  decide

theorem d7sig_99 : feedbackSignal prog07 [9, 5, 7, 8, 6] = 119064110 := by
  decide

theorem d7sig_100 : feedbackSignal prog07 [9, 5, 8, 6, 7] = 120146511 := by
  decide

theorem d7sig_101 : feedbackSignal prog07 [9, 5, 8, 7, 6] = 121228912 := by
  decide

theorem d7sig_102 : feedbackSignal prog07 [9, 6, 5, 7, 8] = 119064110 := by
  decide

theorem d7sig_103 : feedbackSignal prog07 [9, 6, 5, 8, 7] = 120146511 := by
  decide

theorem d7sig_104 : feedbackSignal prog07 [9, 6, 7, 5, 8] = 123393714 := by
  decide

theorem d7sig_105 : feedbackSignal prog07 [9, 6, 7, 8, 5] = 126640917 := by
  decide

theorem d7sig_106 : feedbackSignal prog07 [9, 6, 8, 5, 7] = 126640917 := by
  decide

theorem d7sig_107 : feedbackSignal prog07 [9, 6, 8, 7, 5] = 128805719 := by
  decide

theorem d7sig_108 : feedbackSignal prog07 [9, 7, 5, 6, 8] = 125558516 := by
  decide

theorem d7sig_109 : feedbackSignal prog07 [9, 7, 5, 8, 6] = 127723318 := by
  decide

theorem d7sig_110 : feedbackSignal prog07 [9, 7, 6, 5, 8] = 127723318 := by
  decide

theorem d7sig_111 : feedbackSignal prog07 [9, 7, 6, 8, 5] = 130970521 := by
  decide

theorem d7sig_112 : feedbackSignal prog07 [9, 7, 8, 5, 6] = 134217724 := by
  decide

theorem d7sig_113 : feedbackSignal prog07 [9, 7, 8, 6, 5] = 135300125 := by
  decide

theorem d7sig_114 : feedbackSignal prog07 [9, 8, 5, 6, 7] = 133135323 := by
  decide

theorem d7sig_115 : feedbackSignal prog07 [9, 8, 5, 7, 6] = 134217724 := by
  decide

theorem d7sig_116 : feedbackSignal prog07 [9, 8, 6, 5, 7] = 135300125 := by
  decide

theorem d7sig_117 : feedbackSignal prog07 [9, 8, 6, 7, 5] = 137464927 := by
  decide

theorem d7sig_118 : feedbackSignal prog07 [9, 8, 7, 5, 6] = 138547328 := by
  decide

theorem d7sig_119 : feedbackSignal prog07 [9, 8, 7, 6, 5] = 139629729 := by
  decide

theorem d7perms_eq : phase_settings_combinations 5 [5, 6, 7, 8, 9] = d7perms := by
  decide

theorem foldl_signal_eq (g : List Int → Int) :
    ∀ (ps : List (List Int)) (vs : List Int), ps.map g = vs →
      ∀ b : Int,
        List.foldl (fun best p => if best < g p then g p else best) b ps =
          List.foldl (fun best v => if best < v then v else best) b vs := by
  intro ps
  induction ps with
  | nil =>
    intro vs h b
    rw [← h]
    rfl
  | cons p rest ih =>
    intro vs h b
    rw [← h]
    simp only [List.map_cons, List.foldl_cons]
    exact ih (rest.map g) rfl (if b < g p then g p else b)

theorem d7perms_signals :
    d7perms.map (feedbackSignal prog07) = d7sigValues := by
  simp only [d7perms, d7sigValues, List.map_cons, List.map_nil,
    d7sig_0,
    d7sig_1,
    d7sig_2,
    d7sig_3,
    d7sig_4,
    d7sig_5,
    d7sig_6,
    d7sig_7,
    d7sig_8,
    d7sig_9,
    d7sig_10,
    d7sig_11,
    d7sig_12,
    d7sig_13,
    d7sig_14,
    d7sig_15,
    d7sig_16,
    d7sig_17,
    d7sig_18,
    d7sig_19,
    d7sig_20,
    d7sig_21,
    d7sig_22,
    d7sig_23,
    d7sig_24,
    d7sig_25,
    d7sig_26,
    d7sig_27,
    d7sig_28,
    d7sig_29,
    d7sig_30,
    d7sig_31,
    d7sig_32,
    d7sig_33,
    d7sig_34,
    d7sig_35,
    d7sig_36,
    d7sig_37,
    d7sig_38,
    d7sig_39,
    d7sig_40,
    d7sig_41,
    d7sig_42,
    d7sig_43,
    d7sig_44,
    d7sig_45,
    d7sig_46,
    d7sig_47,
    d7sig_48,
    d7sig_49,
    d7sig_50,
    d7sig_51,
    d7sig_52,
    d7sig_53,
    d7sig_54,
    d7sig_55,
    d7sig_56,
    d7sig_57,
    d7sig_58,
    d7sig_59,
    d7sig_60,
    d7sig_61,
    d7sig_62,
    d7sig_63,
    d7sig_64,
    d7sig_65,
    d7sig_66,
    d7sig_67,
    d7sig_68,
    d7sig_69,
    d7sig_70,
    d7sig_71,
    d7sig_72,
    d7sig_73,
    d7sig_74,
    d7sig_75,
    d7sig_76,
    d7sig_77,
    d7sig_78,
    d7sig_79,
    d7sig_80,
    d7sig_81,
    d7sig_82,
    d7sig_83,
    d7sig_84,
    d7sig_85,
    d7sig_86,
    d7sig_87,
    d7sig_88,
    d7sig_89,
    d7sig_90,
    d7sig_91,
    d7sig_92,
    d7sig_93,
    d7sig_94,
    d7sig_95,
    d7sig_96,
    d7sig_97,
    d7sig_98,
    d7sig_99,
    d7sig_100,
    d7sig_101,
    d7sig_102,
    d7sig_103,
    d7sig_104,
    d7sig_105,
    d7sig_106,
    d7sig_107,
    d7sig_108,
    d7sig_109,
    d7sig_110,
    d7sig_111,
    d7sig_112,
    d7sig_113,
    d7sig_114,
    d7sig_115,
    d7sig_116,
    d7sig_117,
    d7sig_118,
    d7sig_119]

/-- C10: five engines loaded with the feedback-loop program, seeded with the
phase settings {9,8,7,6,5} (one per engine, every permutation considered),
wired output-to-input in a cycle with the first engine additionally seeded
with 0, run until every engine halts; the driving loop stops forwarding when
a send fails, and the maximum over all phase permutations of the last value
observed on the loop is 139629729. -/
theorem c10_feedback_loop_maximum : optimize_thrusters prog07 = 139629729 := by
  have h1 : optimize_thrusters prog07 =
      (phase_settings_combinations 5 [5, 6, 7, 8, 9]).foldl
        (fun best p =>
          if best < feedbackSignal prog07 p then feedbackSignal prog07 p else best) 0 := rfl
  rw [h1, d7perms_eq,
    foldl_signal_eq (feedbackSignal prog07) d7perms d7sigValues d7perms_signals 0]
  decide

end Day07
